import Mathlib

/-!
Verification development for the scene composition & rendering engine
(`canva_killer`).  The TypeScript sources are shallowly embedded: JS numbers
are modelled as rationals (`ℚ`), JS objects as ordered association lists,
exceptions as `Except`/result pairs, and in-place mutation as explicit state
passing (a function that mutates its argument returns the updated value, also
on the error path, so that "mutated despite the error" is expressible).
`generateId` in the source draws on `Date.now()`/`Math.random()`; it is
modelled by threading an explicit fresh-identifier supply.
-/

namespace CanvaKiller

/-- Error taxonomy of `operation-types.ts` (`ValidationError`, `ReferenceError`,
`APIError`, `FileSystemError`) plus `generic` for a plain `new Error(...)`. -/
inductive ExecError where
  | validation (msg : String)
  | reference (msg : String)
  | api (msg : String)
  | filesystem (msg : String)
  | generic (msg : String)
deriving DecidableEq, Repr

/-- The message carried by an error (`error.message`). -/
def ExecError.message : ExecError → String
  | .validation m => m
  | .reference m => m
  | .api m => m
  | .filesystem m => m
  | .generic m => m

/-- Whether an `Except` result is an error. -/
def isErr {ε α : Type} : Except ε α → Bool
  | .error _ => true
  | .ok _ => false

instance {ε α : Type} [DecidableEq ε] [DecidableEq α] : DecidableEq (Except ε α) :=
  fun a b =>
    match a, b with
    | .error e1, .error e2 => decidable_of_iff (e1 = e2) (by simp)
    | .error _, .ok _ => isFalse (by simp)
    | .ok _, .error _ => isFalse (by simp)
    | .ok v1, .ok v2 => decidable_of_iff (v1 = v2) (by simp)

/-- JS `Math.round`: round half toward positive infinity. -/
def jsRound (q : ℚ) : ℤ := ⌊q + 1/2⌋

/-- Render an integer the way JS template interpolation renders an integral
number (e.g. `0 ↦ "0"`, `-59 ↦ "-59"`). -/
def jsIntToString (n : ℤ) : String := toString n

/-- Render a JS number.  Every number interpolated into a string by a theorem
in this development is integral; the non-integral branch renders the reduced
fraction and is never exercised. -/
def jsNumToString (q : ℚ) : String :=
  if q.den = 1 then jsIntToString q.num
  else jsIntToString q.num ++ "/" ++ toString q.den

/-- `s.toLowerCase()` on a string. -/
def jsToLowerCase (s : String) : String := String.mk (s.data.map Char.toLower)

/-- Value of a single hexadecimal digit. -/
def hexDigitVal? (c : Char) : Option Nat :=
  if '0' ≤ c ∧ c ≤ '9' then some (c.toNat - '0'.toNat)
  else if 'a' ≤ c ∧ c ≤ 'f' then some (c.toNat - 'a'.toNat + 10)
  else if 'A' ≤ c ∧ c ≤ 'F' then some (c.toNat - 'A'.toNat + 10)
  else none

/-- `parseInt(<two hex chars>, 16)`. -/
def parseHexPair? (c1 c2 : Char) : Option Nat := do
  let h ← hexDigitVal? c1
  let l ← hexDigitVal? c2
  pure (h * 16 + l)

/-! ## Data model (`types.ts`) -/

/-- A palette color: id, display name and r/g/b/a channel values. -/
structure Color where
  id : String
  name : String
  r : ℚ
  g : ℚ
  b : ℚ
  a : ℚ
deriving DecidableEq, Repr

/-- A palette font: id, family name and resolved URL. -/
structure Font where
  font_id : String
  font_name : String
  font_url : String
deriving DecidableEq, Repr

/-- The theme: ordered color and font palettes. -/
structure Theme where
  theme_id : String
  theme_name : String
  color_palette : List Color
  font_palette : List Font
deriving DecidableEq, Repr

/-- Parsed r/g/b/a components of a color literal. -/
structure RGBA where
  r : ℚ
  g : ℚ
  b : ℚ
  a : ℚ
deriving DecidableEq, Repr

/-! ## `scene-builder.ts`: hex parsing and palette registration -/

/-- `hexToRGBA` of `scene-builder.ts`: strips a leading `#`, then parses a
6-digit (alpha = 1) or 8-digit (alpha = trailing byte / 255) hex literal and
throws `ValidationError` on any other length.  JS `parseInt` would produce
`NaN` components for non-hex digits; that degenerate case is modelled as the
same parse failure, and every theorem below applies the function to valid hex
literals only. -/
def hexToRGBA (hex : String) : Except ExecError RGBA :=
  let hchars : List Char :=
    match hex.data with
    | '#' :: rest => rest
    | cs => cs
  let h : String := String.mk hchars
  match hchars with
  | [c1, c2, c3, c4, c5, c6] =>
    match parseHexPair? c1 c2, parseHexPair? c3 c4, parseHexPair? c5 c6 with
    | some r, some g, some b => .ok ⟨(r : ℚ), (g : ℚ), (b : ℚ), 1⟩
    | _, _, _ => .error (.validation ("Invalid hex color: " ++ h))
  | [c1, c2, c3, c4, c5, c6, c7, c8] =>
    match parseHexPair? c1 c2, parseHexPair? c3 c4, parseHexPair? c5 c6,
        parseHexPair? c7 c8 with
    | some r, some g, some b, some a =>
      .ok ⟨(r : ℚ), (g : ℚ), (b : ℚ), (a : ℚ) / 255⟩
    | _, _, _, _ => .error (.validation ("Invalid hex color: " ++ h))
  | _ => .error (.validation ("Invalid hex color: " ++ h))

/-- `ensureColorInTheme`: parse the literal, search the palette for an exact
r/g/b/a match and return its id; otherwise fail at 16 entries, else append a
fresh entry named `color_<n+1>`.  `freshId` stands for the id that
`generateId('color')` would synthesize.  The returned theme is the palette
state after the call (unchanged on every failure path, since the source throws
before pushing). -/
def ensureColorInTheme (theme : Theme) (color : String) (freshId : String) :
    Except ExecError String × Theme :=
  match hexToRGBA color with
  | .error e => (.error e, theme)
  | .ok rgba =>
    match theme.color_palette.find? (fun c =>
        decide (c.r = rgba.r) && decide (c.g = rgba.g) &&
        decide (c.b = rgba.b) && decide (c.a = rgba.a)) with
    | some existingColor => (.ok existingColor.id, theme)
    | none =>
      if theme.color_palette.length ≥ 16 then
        (.error (.validation "Color palette limit reached (max 16 colors)"), theme)
      else
        let colorName := "color_" ++ toString (theme.color_palette.length + 1)
        (.ok freshId,
          { theme with color_palette := theme.color_palette ++
              [{ id := freshId, name := colorName,
                 r := rgba.r, g := rgba.g, b := rgba.b, a := rgba.a }] })

/-- `ensureFontInTheme`: search by case-insensitive family name; fail at 8
entries; otherwise append with the URL produced by the external font-lookup
capability (`getFontUrl`, which performs a network probe and is therefore a
parameter `fontUrl` of the model). -/
def ensureFontInTheme (fontUrl : String → String) (theme : Theme)
    (fontName : String) (freshId : String) :
    Except ExecError String × Theme :=
  match theme.font_palette.find? (fun f =>
      decide (jsToLowerCase f.font_name = jsToLowerCase fontName)) with
  | some existingFont => (.ok existingFont.font_id, theme)
  | none =>
    if theme.font_palette.length ≥ 8 then
      (.error (.validation "Font palette limit reached (max 8 fonts)"), theme)
    else
      (.ok freshId,
        { theme with font_palette := theme.font_palette ++
            [{ font_id := freshId, font_name := fontName,
               font_url := fontUrl fontName }] })

/-! ## Scene graph model (`types.ts`)

`Element` in the source is one object with many optional fields, tagged by
`element_type`.  `style` is modelled as an ordered key → value map so that JS
property iteration order (used by the renderer) is preserved; `children` is
modelled as a plain list, the empty list standing for the absent field (the
source treats `undefined` and `[]` children identically everywhere: both are
skipped or vacuously traversed, and `addElementToContainer` initializes an
absent `children` to `[]` before pushing). -/

/-- The closed `element_type` variant tag. -/
inductive ElementType where
  | data_item
  | shape
  | svg
  | container
  | image
deriving DecidableEq, Repr

/-- Shape kinds. -/
inductive ShapeType where
  | rectangle
  | circle
deriving DecidableEq, Repr

/-- The sparse style map of an element, in property insertion order. -/
abbrev ElementStyle := List (String × String)

/-- A node of the layout tree. -/
inductive Element where
  | mk (element_id : String) (element_type : ElementType)
      (data_item_id : Option String) (shape_type : Option ShapeType)
      (svg_content : Option String) (image_url : Option String)
      (style : Option ElementStyle) (children : List Element)
deriving Repr

/-- Element id projection. -/
def Element.element_id : Element → String
  | .mk i _ _ _ _ _ _ _ => i

/-- Element type projection. -/
def Element.element_type : Element → ElementType
  | .mk _ t _ _ _ _ _ _ => t

/-- Referenced data-item id projection. -/
def Element.data_item_id : Element → Option String
  | .mk _ _ d _ _ _ _ _ => d

/-- Style map projection. -/
def Element.style : Element → Option ElementStyle
  | .mk _ _ _ _ _ _ st _ => st

/-- Shape kind projection. -/
def Element.shape_type : Element → Option ShapeType
  | .mk _ _ _ s _ _ _ _ => s

/-- Children projection. -/
def Element.children : Element → List Element
  | .mk _ _ _ _ _ _ _ ch => ch

/-- Image URL projection. -/
def Element.image_url : Element → Option String
  | .mk _ _ _ _ _ u _ _ => u

/-- SVG content projection. -/
def Element.svg_content : Element → Option String
  | .mk _ _ _ _ v _ _ _ => v

/-- A data item: inline text or an image URL, with a display name. -/
structure DataItem where
  id : String
  type : String
  display_name : String
  content : Option String
  image_url : Option String
deriving DecidableEq, Repr

/-- The ordered data-item collection of a scene. -/
structure SceneData where
  scene_id : String
  data_items : List DataItem
deriving DecidableEq, Repr

/-- Canvas dimensions in pixels. -/
structure Canvas where
  width : ℚ
  height : ℚ
deriving DecidableEq, Repr

/-- The layout template: canvas size plus the root element list. -/
structure Template where
  template_id : String
  template_name : String
  canvas : Canvas
  elements : List Element
deriving Repr

/-- The scene triple. -/
structure Scene where
  data : SceneData
  template : Template
  theme : Theme
deriving Repr

/-! ## Scene graph operations (`scene-builder.ts`) -/

mutual

/-- `findElement`: depth-first search, descending only into `container`
children, returning the first match. -/
def findElement : List Element → String → Option Element
  | [], _ => none
  | e :: rest, elementId =>
    match findInElement e elementId with
    | some found => some found
    | none => findElement rest elementId

/-- One loop iteration of `findElement`: the element itself, else (for a
container) its children. -/
def findInElement : Element → String → Option Element
  | .mk i t d s v u st ch, elementId =>
    if i = elementId then some (.mk i t d s v u st ch)
    else if t = ElementType.container then findElement ch elementId else none

end

mutual

/-- `removeElementFromArray`: detach the first depth-first match, returning it
together with the list as mutated by the `splice` (unchanged when nothing was
found). -/
def removeElementFromArray : List Element → String → Option Element × List Element
  | [], _ => (none, [])
  | e :: rest, elementId =>
    if e.element_id = elementId then (some e, rest)
    else
      match removeFromChildren e elementId with
      | (some found, e2) => (some found, e2 :: rest)
      | (none, _) =>
        match removeElementFromArray rest elementId with
        | (r, rest2) => (r, e :: rest2)

/-- Removal inside one element: for a container, splice out of its children
(the element is returned rebuilt, untouched when nothing was found there). -/
def removeFromChildren : Element → String → Option Element × Element
  | .mk i t d s v u st ch, elementId =>
    if t = ElementType.container then
      match removeElementFromArray ch elementId with
      | (some found, newCh) => (some found, .mk i t d s v u st newCh)
      | (none, _) => (none, .mk i t d s v u st ch)
    else (none, .mk i t d s v u st ch)

end

/-- `removeElementFromTemplate`: detach an element from the template tree.
`none` is "not found" (the template is then unchanged). -/
def removeElementFromTemplate (template : Template) (elementId : String) :
    Option Element × Template :=
  match removeElementFromArray template.elements elementId with
  | (none, _) => (none, template)
  | (some e, rest) => (some e, { template with elements := rest })

/-- `children.push(child)` on one element. -/
def Element.pushChild : Element → Element → Element
  | .mk i t d s v u st ch, child => .mk i t d s v u st (ch ++ [child])

mutual

/-- Functional rendering of `container.children.push(element)`: append `child`
to the children of the node that `findElement` returns (the first depth-first
match), mirroring `findElement`'s traversal order. -/
def pushChildAt : List Element → String → Element → List Element
  | [], _, _ => []
  | e :: rest, containerId, child =>
    if e.element_id = containerId then e.pushChild child :: rest
    else if e.element_type = ElementType.container ∧
        (findElement e.children containerId).isSome then
      pushChildIn e containerId child :: rest
    else
      e :: pushChildAt rest containerId child

/-- `pushChildAt` inside one element's children. -/
def pushChildIn : Element → String → Element → Element
  | .mk i t d s v u st ch, containerId, child =>
    .mk i t d s v u st (pushChildAt ch containerId child)

end

/-- `addElementToContainer`: detach the element from wherever it sits, then
append it to the named container's children.  The returned template is the
tree state after the call; on the two failure paths that follow the detach the
element stays detached (the source throws between the `splice` and the
`push`). -/
def addElementToContainer (template : Template) (elementId containerId : String) :
    Except ExecError Unit × Template :=
  match removeElementFromTemplate template elementId with
  | (none, _) => (.error (.validation ("Element not found: " ++ elementId)), template)
  | (some element, t1) =>
    match findElement t1.elements containerId with
    | none => (.error (.validation ("Container not found: " ++ containerId)), t1)
    | some container =>
      if container.element_type ≠ ElementType.container then
        (.error (.validation ("Element " ++ containerId ++ " is not a container")), t1)
      else
        (.ok (), { t1 with elements := pushChildAt t1.elements containerId element })

mutual

/-- Number of occurrences of an element id along the traversal used by
`findElement`/`removeElementFromArray` (descending only into `container`
children). -/
def countIds : List Element → String → ℕ
  | [], _ => 0
  | e :: rest, x => countInElem e x + countIds rest x

/-- `countIds` for one element and, when it is a container, its subtree. -/
def countInElem : Element → String → ℕ
  | .mk i t _ _ _ _ _ ch, x =>
    (if i = x then 1 else 0) + (if t = ElementType.container then countIds ch x else 0)

end

/-- `calculateAnchorPosition`: the nine-point anchor rule plus offsets; an
unrecognized (lower-cased) anchor is a `ValidationError`. -/
def calculateAnchorPosition (anchor : String)
    (canvasWidth canvasHeight elementWidth elementHeight offsetX offsetY : ℚ) :
    Except ExecError (ℚ × ℚ) :=
  let a := jsToLowerCase anchor
  let base? : Option (ℚ × ℚ) :=
    if a = "center" then
      some ((canvasWidth - elementWidth) / 2, (canvasHeight - elementHeight) / 2)
    else if a = "top-left" then some (0, 0)
    else if a = "top-center" then some ((canvasWidth - elementWidth) / 2, 0)
    else if a = "top-right" then some (canvasWidth - elementWidth, 0)
    else if a = "center-left" then some (0, (canvasHeight - elementHeight) / 2)
    else if a = "center-right" then
      some (canvasWidth - elementWidth, (canvasHeight - elementHeight) / 2)
    else if a = "bottom-left" then some (0, canvasHeight - elementHeight)
    else if a = "bottom-center" then
      some ((canvasWidth - elementWidth) / 2, canvasHeight - elementHeight)
    else if a = "bottom-right" then
      some (canvasWidth - elementWidth, canvasHeight - elementHeight)
    else none
  match base? with
  | some (x, y) => .ok (x + offsetX, y + offsetY)
  | none => .error (.validation ("Unknown anchor point: " ++ anchor))

/-! ## Parameter values and placeholder resolution -/

/-- A JSON-like operation parameter value. -/
inductive JsonValue where
  | null
  | bool (b : Bool)
  | num (q : ℚ)
  | str (s : String)
  | arr (items : List JsonValue)
  | obj (fields : List (String × JsonValue))
deriving Repr

/-- First value bound to a key in an association list (JS `Map.get` /
property read). -/
def mapGet {α β : Type} [BEq α] (m : List (α × β)) (k : α) : Option β :=
  (m.find? (fun p => p.1 == k)).map Prod.snd

/-- JS `Map.set` / property write: overwrite in place, else append. -/
def mapSet {α β : Type} [BEq α] (m : List (α × β)) (k : α) (v : β) :
    List (α × β) :=
  if (m.find? (fun p => p.1 == k)).isSome then
    m.map (fun p => if p.1 == k then (k, v) else p)
  else m ++ [(k, v)]

/-- Consume an expected literal character prefix. -/
def stripPrefixChars : List Char → List Char → Option (List Char)
  | [], rest => some rest
  | _, [] => none
  | p :: ps, c :: cs => if c = p then stripPrefixChars ps cs else none

/-- Decimal digit value. -/
def decDigitVal? (c : Char) : Option ℕ :=
  if '0' ≤ c ∧ c ≤ '9' then some (c.toNat - '0'.toNat) else none

/-- `parseInt(digits, 10)` over an all-digit character run; `none` as soon as a
non-digit appears. -/
def parseDecAux : List Char → ℕ → Option ℕ
  | [], acc => some acc
  | c :: cs, acc =>
    match decDigitVal? c with
    | some d => parseDecAux cs (acc * 10 + d)
    | none => none

/-- The regex `^\$output_of_step_(\d+)$` of `resolveParameters`: the step
number when the whole string is exactly a placeholder, else `none`. -/
def placeholderStep? (s : String) : Option ℕ :=
  match stripPrefixChars "$output_of_step_".data s.data with
  | none => none
  | some [] => none
  | some rest => parseDecAux rest 0

mutual

/-- `resolveParameters` of `scene-builder.ts`.  The source receives the whole
execution context but reads only `context.operationOutputs`, which is passed
here directly.  Strings that are exactly `$output_of_step_N` are replaced by
the recorded output of step `N` (a missing output is a `ValidationError`);
arrays and objects are traversed recursively; everything else passes
through. -/
def resolveParameters (outputs : List (ℤ × JsonValue)) :
    JsonValue → Except ExecError JsonValue
  | .str s =>
    match placeholderStep? s with
    | some stepNum =>
      match mapGet outputs (stepNum : ℤ) with
      | none => .error (.validation ("No output found for step " ++ toString stepNum))
      | some output => .ok output
    | none => .ok (.str s)
  | .arr items => (resolveParamList outputs items).map .arr
  | .obj fields => (resolveParamFields outputs fields).map .obj
  | .null => .ok .null
  | .bool b => .ok (.bool b)
  | .num q => .ok (.num q)

/-- Item-wise resolution of an array parameter (left to right, first failure
propagates, as the exception does through `params.map`). -/
def resolveParamList (outputs : List (ℤ × JsonValue)) :
    List JsonValue → Except ExecError (List JsonValue)
  | [] => .ok []
  | v :: rest =>
    match resolveParameters outputs v with
    | .error e => .error e
    | .ok v2 =>
      match resolveParamList outputs rest with
      | .error e => .error e
      | .ok rest2 => .ok (v2 :: rest2)

/-- Field-wise resolution of an object parameter. -/
def resolveParamFields (outputs : List (ℤ × JsonValue)) :
    List (String × JsonValue) → Except ExecError (List (String × JsonValue))
  | [] => .ok []
  | (k, v) :: rest =>
    match resolveParameters outputs v with
    | .error e => .error e
    | .ok v2 =>
      match resolveParamFields outputs rest with
      | .error e => .error e
      | .ok rest2 => .ok ((k, v2) :: rest2)

end

mutual

/-- A parameter value containing no placeholder string anywhere. -/
def noPlaceholders : JsonValue → Bool
  | .str s => (placeholderStep? s).isNone
  | .arr items => noPlaceholdersList items
  | .obj fields => noPlaceholdersFields fields
  | .null => true
  | .bool _ => true
  | .num _ => true

/-- `noPlaceholders` over an array's items. -/
def noPlaceholdersList : List JsonValue → Bool
  | [] => true
  | v :: rest => noPlaceholders v && noPlaceholdersList rest

/-- `noPlaceholders` over an object's fields. -/
def noPlaceholdersFields : List (String × JsonValue) → Bool
  | [] => true
  | (_, v) :: rest => noPlaceholders v && noPlaceholdersFields rest

end

/-! ## Text metrics (`scene_generator.ts`)

Millimeter/point to pixel conversion at 300 DPI and the cap-height baseline
correction applied to imported text positions. -/

/-- Reference resolution. -/
def DPI : ℚ := 300

/-- `DPI / 25.4` px per mm. -/
def MM_TO_PX : ℚ := DPI / 25.4

/-- `300 / 72` px per pt. -/
def PT_TO_PX : ℚ := 300 / 72

/-- `mmToPx`: rounds to the nearest integer pixel. -/
def mmToPx (mm : ℚ) : ℚ := (jsRound (mm * MM_TO_PX) : ℚ)

/-- `ptToPx`: rounds to one decimal place. -/
def ptToPx (pt : ℚ) : ℚ := (jsRound (pt * PT_TO_PX * 10) : ℚ) / 10

/-- Per-family font metrics as fractions of em. -/
structure FontMetrics where
  ascent : ℚ
  descent : ℚ
  capHeight : ℚ
deriving DecidableEq, Repr

/-- The `FONT_METRICS` table (`arial`, `montserrat`). -/
def FONT_METRICS : List (String × FontMetrics) :=
  [("arial", ⟨1854/2048, 434/2048, 1467/2048⟩),
   ("montserrat", ⟨1006/1000, 194/1000, 700/1000⟩)]

/-- The `_default` fallback triple for unknown families. -/
def defaultFontMetrics : FontMetrics := ⟨9/10, 2/10, 71/100⟩

/-- `getFontMetrics`: per-family lookup on the lower-cased name with the
`_default` fallback. -/
def getFontMetrics (fontName : String) : FontMetrics :=
  match mapGet FONT_METRICS (jsToLowerCase fontName) with
  | some m => m
  | none => defaultFontMetrics

/-- `capHeightOffsetPx`: pixel offset from CSS line-box top to visible
cap-height top. -/
def capHeightOffsetPx (fontName : String) (fontSizePx lineHeight : ℚ) : ℚ :=
  let m := getFontMetrics fontName
  let halfLeading := (lineHeight - m.ascent - m.descent) * fontSizePx / 2
  halfLeading + (m.ascent - m.capHeight) * fontSizePx

/-- The corrected top position computed per text entry by `generateScene`
(`yPx = Math.round((mmToPx(entry.yMm) - yOffsetPx) * 10) / 10`, with the font
size first converted from points). -/
def textTopPx (fontName : String) (fontSizePt yMm lineSpacing : ℚ) : ℚ :=
  let fontSizePx := ptToPx fontSizePt
  let yOffsetPx := capHeightOffsetPx fontName fontSizePx lineSpacing
  (jsRound ((mmToPx yMm - yOffsetPx) * 10) : ℚ) / 10

/-- Modelled from the spec (§4.3 / claim C8): the corrected top position as the
claim words it — `mm-to-px(yMm) − offset` with
`offset = halfLeading + (ascent − capHeight) × fontSizePx` and
`halfLeading = (lineHeight − ascent − descent) × fontSizePx / 2` — with no
final rounding. -/
def specCorrectedTopExact (fontName : String) (fontSizePx lineHeight yMm : ℚ) : ℚ :=
  let m := getFontMetrics fontName
  let halfLeading := (lineHeight - m.ascent - m.descent) * fontSizePx / 2
  let offset := halfLeading + (m.ascent - m.capHeight) * fontSizePx
  mmToPx yMm - offset

/-! ## Execution context and final scene validation (`operation-types.ts`,
`executeOperations`'s `validateScene`) -/

/-- The per-build mutable execution context.  `idCounter` is the explicit
fresh-identifier supply standing in for `generateId`'s timestamp/randomness. -/
structure ExecutionContext where
  sceneId : String
  sceneName : String
  data : SceneData
  template : Template
  theme : Theme
  currentStep : ℤ
  totalSteps : ℤ
  layerMap : List (String × String)
  operationOutputs : List (ℤ × JsonValue)
  idCounter : ℕ
deriving Repr

mutual

/-- The `checkElement` closure of `validateScene`: a `data_item` element with a
truthy (present, nonempty) `data_item_id` must reference a known id; children
are checked recursively (for any variant carrying them, as in the source). -/
def checkElement (ids : List String) : Element → Except ExecError Unit
  | .mk _ t did _ _ _ _ ch =>
    let own : Except ExecError Unit :=
      match t, did with
      | ElementType.data_item, some d =>
        if d = "" then .ok ()
        else if ids.any (fun i => decide (i = d)) then .ok ()
        else .error (.validation ("Element references non-existent data item: " ++ d))
      | _, _ => .ok ()
    match own with
    | .error e => .error e
    | .ok _ => checkElementList ids ch

/-- `forEach(checkElement)` with the exception aborting the iteration. -/
def checkElementList (ids : List String) : List Element → Except ExecError Unit
  | [] => .ok ()
  | e :: rest =>
    match checkElement ids e with
    | .error err => .error err
    | .ok _ => checkElementList ids rest

end

/-- `validateScene`: the final structural validation.  The source's
`!context.template.canvas` clause is vacuous here (the TS type makes `canvas`
non-optional) and `!width`/`!height` truthiness is zero-ness in the rational
model. -/
def validateScene (context : ExecutionContext) : Except ExecError Unit :=
  if context.template.canvas.width = 0 ∨ context.template.canvas.height = 0 then
    .error (.validation "Canvas not initialized")
  else if context.theme.color_palette.length > 16 then
    .error (.validation "Color palette exceeds limit of 16 colors")
  else if context.theme.font_palette.length > 8 then
    .error (.validation "Font palette exceeds limit of 8 fonts")
  else
    checkElementList (context.data.data_items.map (fun d => d.id))
      context.template.elements

mutual

/-- Characterization of a failing data-item reference: a `data_item` element
with a truthy `data_item_id` outside the known ids, anywhere in the subtree. -/
def elemBadRef (ids : List String) : Element → Bool
  | .mk _ t did _ _ _ _ ch =>
    (match t, did with
     | ElementType.data_item, some d =>
       decide (d ≠ "") && ! ids.any (fun i => decide (i = d))
     | _, _ => false) || elemBadRefList ids ch

/-- `elemBadRef` over a list of elements. -/
def elemBadRefList (ids : List String) : List Element → Bool
  | [] => false
  | e :: rest => elemBadRef ids e || elemBadRefList ids rest

end

/-! ## Deterministic renderer (`renderer.ts`) -/

/-- Rendered output: markup and stylesheet text. -/
structure RenderResult where
  html : String
  css : String
deriving DecidableEq, Repr

/-- `key.replace(/_/g, '-')`. -/
def underscoresToHyphens (s : String) : String :=
  String.mk (s.data.map (fun c => if c = '_' then '-' else c))

/-- `'  '.repeat(indentLevel)`. -/
def indentOf (n : ℕ) : String := String.join (List.replicate n "  ")

/-- The class name composed in both `generateElementCSS` and
`generateElementHTML`: `prefix ? \x60${prefix}-${element_id}\x60 : element_id`
(an empty prefix is falsy). -/
def chainName (pre elementId : String) : String :=
  if pre ≠ "" then pre ++ "-" ++ elementId else elementId

/-- One property line of `convertStyleToCSS`: the `font` special case, the
`fill` → `background-color` remap, underscore-to-hyphen property names, and
Color-id dereferencing to an `rgba(...)` literal. -/
def stylePropCSS (key value : String) (fontMap : List (String × Font))
    (colorMap : List (String × Color)) : String :=
  match (if key = "font" then mapGet fontMap value else none) with
  | some font => "  font-family: \x27" ++ font.font_name ++ "\x27, serif;\n"
  | none =>
    let cssProperty :=
      if key = "fill" then "background-color" else underscoresToHyphens key
    let cssValue :=
      match (if key = "color" ∨ key = "fill" ∨ key = "background_color" ∨
          key = "border_color" then mapGet colorMap value else none) with
      | some color =>
        "rgba(" ++ jsNumToString color.r ++ ", " ++ jsNumToString color.g ++ ", " ++
          jsNumToString color.b ++ ", " ++ jsNumToString color.a ++ ")"
      | none => value
    "  " ++ cssProperty ++ ": " ++ cssValue ++ ";\n"

/-- The `css +=` loop over the style's entries. -/
def stylePropsCSS (style : ElementStyle) (fontMap : List (String × Font))
    (colorMap : List (String × Color)) : String :=
  match style with
  | [] => ""
  | kv :: rest => stylePropCSS kv.1 kv.2 fontMap colorMap ++ stylePropsCSS rest fontMap colorMap

/-- The layering heuristic of `convertStyleToCSS`: a full-size style without
an explicit `position` is forced to a background layer, any other style
without an explicit `position` is stacked above (`isFullSize` and
`hasExplicitPosition` of the source are folded in). -/
def positionCSS (style : ElementStyle) : String :=
  if (mapGet style "width" = some "100%" ∧ mapGet style "height" = some "100%") ∧
      ¬ (mapGet style "position").isSome then
    "  position: absolute;\n  top: 0;\n  left: 0;\n  z-index: 0;\n"
  else if ¬ (mapGet style "position").isSome then
    "  position: relative;\n  z-index: 1;\n"
  else ""

/-- `convertStyleToCSS`: the layering heuristic followed by the property lines
in insertion order. -/
def convertStyleToCSS (style : ElementStyle) (fontMap : List (String × Font))
    (colorMap : List (String × Color)) : String :=
  positionCSS style ++ stylePropsCSS style fontMap colorMap

mutual

/-- `generateElementCSS`: a rule for the element when it has a style map, then
the children recursively under the composed class name. -/
def generateElementCSS (fontMap : List (String × Font))
    (colorMap : List (String × Color)) : Element → String → String
  | .mk i t d s v u st ch, pre =>
    let className := chainName pre i
    let own :=
      match st with
      | some style =>
        let styles := convertStyleToCSS style fontMap colorMap
        if styles ≠ "" then "." ++ className ++ " \x7b\n" ++ styles ++ "\x7d\n\n" else ""
      | none => ""
    own ++ generateElementCSSList fontMap colorMap ch className

/-- `generateElementCSS` over a sibling list. -/
def generateElementCSSList (fontMap : List (String × Font))
    (colorMap : List (String × Color)) : List Element → String → String
  | [], _ => ""
  | e :: rest, pre =>
    generateElementCSS fontMap colorMap e pre ++
      generateElementCSSList fontMap colorMap rest pre

end

/-- `generateCSS`: font imports, the canvas rule, the box-sizing reset, then
the per-element rules. -/
def generateCSS (theme : Theme) (template : Template)
    (fontMap : List (String × Font)) (colorMap : List (String × Color)) : String :=
  let fontImports := String.intercalate "\n" (theme.font_palette.map (fun font =>
    "@import url(\x27" ++ font.font_url ++ "\x27);"))
  fontImports ++ "\n\n" ++
    ".scene-container \x7b\n  width: " ++ jsNumToString template.canvas.width ++
    "px;\n  height: " ++ jsNumToString template.canvas.height ++
    "px;\n  position: relative;\n  overflow: hidden;\n  box-sizing: border-box;\n\x7d\n\n" ++
    ".scene-container * \x7b\n  box-sizing: border-box;\n\x7d\n\n" ++
    generateElementCSSList fontMap colorMap template.elements ""

/-- The `class="<name>"` attribute text shared by every emitted tag. -/
def classAttr (className : String) : String := "class=\"" ++ className ++ "\""

/-- `generateDataItemHTML`: text items become a `div` with the raw content,
image items an `img`; a falsy `data_item_id` or an unresolvable id renders
nothing. -/
def generateDataItemHTML (did? : Option String)
    (dataItemMap : List (String × DataItem)) (className indent : String) : String :=
  match did? with
  | none => ""
  | some did =>
    if did = "" then ""
    else
      match mapGet dataItemMap did with
      | none => ""
      | some dataItem =>
        if dataItem.type = "text" then
          indent ++ "<div " ++ classAttr className ++ ">" ++
            (match dataItem.content with | some c => c | none => "") ++ "</div>\n"
        else if dataItem.type = "image" then
          indent ++ "<img " ++ classAttr className ++ " src=\"" ++
            (match dataItem.image_url with | some u => u | none => "") ++
            "\" alt=\"" ++ dataItem.display_name ++ "\" />\n"
        else ""

mutual

/-- `generateElementHTML`: per-variant markup under the composed class name;
containers recurse with the composed name as the children's parent prefix. -/
def generateElementHTML (dataItemMap : List (String × DataItem)) :
    Element → ℕ → String → String
  | .mk i t did s v u st ch, indentLevel, parentPre =>
    let indent := indentOf indentLevel
    let className := chainName parentPre i
    match t with
    | ElementType.data_item => generateDataItemHTML did dataItemMap className indent
    | ElementType.shape => indent ++ "<div " ++ classAttr className ++ "></div>\n"
    | ElementType.container =>
      indent ++ "<div " ++ classAttr className ++ ">\n" ++
        generateElementHTMLList dataItemMap ch (indentLevel + 1) className ++
        indent ++ "</div>\n"
    | ElementType.image =>
      indent ++ "<img " ++ classAttr className ++ " src=\"" ++
        (match u with | some url => url | none => "") ++ "\" alt=\"\" />\n"
    | ElementType.svg =>
      indent ++ "<div " ++ classAttr className ++ ">" ++
        (match v with | some svg => svg | none => "") ++ "</div>\n"

/-- `generateElementHTML` over a sibling list. -/
def generateElementHTMLList (dataItemMap : List (String × DataItem)) :
    List Element → ℕ → String → String
  | [], _, _ => ""
  | e :: rest, indentLevel, parentPre =>
    generateElementHTML dataItemMap e indentLevel parentPre ++
      generateElementHTMLList dataItemMap rest indentLevel parentPre

end

/-- `generateHTML`: the scene container wrapping the root elements. -/
def generateHTML (template : Template) (dataItemMap : List (String × DataItem)) :
    String :=
  "<div class=\"scene-container\">\n" ++
    generateElementHTMLList dataItemMap template.elements 1 "" ++ "</div>"

/-- `renderScene`: build the three id-keyed lookup maps, then emit stylesheet
and markup. -/
def renderScene (scene : Scene) : RenderResult :=
  let dataItemMap := scene.data.data_items.foldl (fun m item => mapSet m item.id item) []
  let colorMap := scene.theme.color_palette.foldl (fun m c => mapSet m c.id c) []
  let fontMap := scene.theme.font_palette.foldl (fun m f => mapSet m f.font_id f) []
  { css := generateCSS scene.theme scene.template fontMap colorMap,
    html := generateHTML scene.template dataItemMap }

/-! ## Spec-side characterizations for the renderer theorems -/

/-- Substring containment stated over the characters. -/
def containsStr (hay needle : String) : Prop := needle.data <:+: hay.data

instance (hay needle : String) : Decidable (containsStr hay needle) :=
  List.decidableInfix needle.data hay.data

mutual

/-- The (class name, style text) pairs of the rules `generateElementCSS` emits
for one element, in traversal order. -/
def cssRulesOf (fontMap : List (String × Font)) (colorMap : List (String × Color)) :
    Element → String → List (String × String)
  | .mk i t d s v u st ch, pre =>
    let className := chainName pre i
    (match st with
     | some style =>
       let styles := convertStyleToCSS style fontMap colorMap
       if styles ≠ "" then [(className, styles)] else []
     | none => []) ++ cssRuleListOf fontMap colorMap ch className

/-- `cssRulesOf` over a sibling list. -/
def cssRuleListOf (fontMap : List (String × Font)) (colorMap : List (String × Color)) :
    List Element → String → List (String × String)
  | [], _ => []
  | e :: rest, pre =>
    cssRulesOf fontMap colorMap e pre ++ cssRuleListOf fontMap colorMap rest pre

end

/-- Flatten a rule list to stylesheet text. -/
def rulesText : List (String × String) → String
  | [] => ""
  | r :: rest => "." ++ r.1 ++ " \x7b\n" ++ r.2 ++ "\x7d\n\n" ++ rulesText rest

mutual

/-- The composed class names of the elements `generateElementHTML` actually
renders (a `data_item` with a falsy or unresolvable id, or whose item has an
unknown type, renders nothing). -/
def renderedClassNames (dataItemMap : List (String × DataItem)) :
    Element → String → List String
  | .mk i t did s v u st ch, parentPre =>
    let className := chainName parentPre i
    match t with
    | ElementType.data_item =>
      (match did with
       | none => []
       | some d =>
         if d = "" then []
         else
           match mapGet dataItemMap d with
           | none => []
           | some item =>
             if item.type = "text" ∨ item.type = "image" then [className] else [])
    | ElementType.container =>
      className :: renderedClassNamesList dataItemMap ch className
    | _ => [className]

/-- `renderedClassNames` over a sibling list. -/
def renderedClassNamesList (dataItemMap : List (String × DataItem)) :
    List Element → String → List String
  | [], _ => []
  | e :: rest, parentPre =>
    renderedClassNames dataItemMap e parentPre ++
      renderedClassNamesList dataItemMap rest parentPre

end

mutual

/-- Well-formed element: only containers hold children. -/
def elemWF : Element → Bool
  | .mk _ t _ _ _ _ _ ch =>
    (decide (t = ElementType.container) || ch.isEmpty) && elemWFList ch

/-- `elemWF` over a list. -/
def elemWFList : List Element → Bool
  | [] => true
  | e :: rest => elemWF e && elemWFList rest

end

mutual

/-- Every `data_item` element resolves: a truthy id, a known item, and a
`text`/`image` item type. -/
def allResolve (dm : List (String × DataItem)) : Element → Bool
  | .mk _ t did _ _ _ _ ch =>
    (match t, did with
     | ElementType.data_item, some d =>
       decide (d ≠ "") &&
         (match mapGet dm d with
          | some item => decide (item.type = "text") || decide (item.type = "image")
          | none => false)
     | ElementType.data_item, none => false
     | _, _ => true) && allResolveList dm ch

/-- `allResolve` over a list. -/
def allResolveList (dm : List (String × DataItem)) : List Element → Bool
  | [] => true
  | e :: rest => allResolve dm e && allResolveList dm rest

end

/-! ## Operation handlers (`operation-handlers.ts`) and the pipeline
(`executeOperations`)

JS destructuring defaults apply on `undefined` only; `||` chains apply on
falsiness; both are modelled explicitly.  `generateId`'s timestamp/randomness
is the context's `idCounter`; the candidate id is consumed (and the counter
bumped) at each `generateId` call site. -/

/-- JS truthiness of a possibly-absent value. -/
def jsTruthy : Option JsonValue → Bool
  | none => false
  | some .null => false
  | some (.bool b) => b
  | some (.num q) => decide (q ≠ 0)
  | some (.str s) => decide (s ≠ "")
  | some (.arr _) => true
  | some (.obj _) => true

/-- JS `a || b` on parameter values. -/
def jsOrVal (a b : Option JsonValue) : Option JsonValue :=
  if jsTruthy a then a else b

/-- JS `a || b` on an optional string. -/
def jsOrStr (a : Option String) (d : String) : String :=
  match a with
  | some s => if s ≠ "" then s else d
  | none => d

/-- JS template interpolation of a parameter value (array/object cases are
approximated and never exercised by a theorem). -/
def jsValToString : JsonValue → String
  | .num q => jsNumToString q
  | .str s => s
  | .bool b => if b then "true" else "false"
  | .null => "null"
  | .arr _ => ""
  | .obj _ => "[object Object]"

/-- A parameter value used where the source expects a number (non-numeric
values, which JS would coerce or turn into `NaN`, are modelled as 0 and never
exercised by a theorem). -/
def jsValToNum : JsonValue → ℚ
  | .num q => q
  | _ => 0

/-- Property read from a (resolved) parameter object. -/
def getField (params : JsonValue) (k : String) : Option JsonValue :=
  match params with
  | .obj fields => mapGet fields k
  | _ => none

/-- Destructuring with a default: the default applies on `undefined` only. -/
def getFieldD (params : JsonValue) (k : String) (d : JsonValue) : JsonValue :=
  (getField params k).getD d

/-- `parseFloat` on a style string: optional sign, integer digits, optional
fraction; parsing stops at the first other character.  A string with no
leading number gives `NaN` in JS; that case is modelled as 0 and never
exercised by a theorem. -/
def jsParseFloat (s : String) : ℚ :=
  let afterSign : List Char × Bool :=
    match s.data with
    | '-' :: rest => (rest, true)
    | cs => (cs, false)
  let intPart := afterSign.1.takeWhile Char.isDigit
  let rest1 := afterSign.1.dropWhile Char.isDigit
  let fracPart : List Char :=
    match rest1 with
    | '.' :: r => r.takeWhile Char.isDigit
    | _ => []
  if intPart = [] ∧ fracPart = [] then 0
  else
    let ip : ℚ := ((parseDecAux intPart 0).getD 0 : ℕ)
    let fp : ℚ := ((parseDecAux fracPart 0).getD 0 : ℕ) / ((10 : ℚ) ^ fracPart.length)
    (if afterSign.2 then -1 else 1) * (ip + fp)

/-- `generateId(prefix)` with the explicit freshness supply. -/
def generateId (pre : String) (n : ℕ) : String := pre ++ "_" ++ toString n

/-- `shadow_color.slice(i, i+2)` parsed as a hex byte (`parseInt(..., 16)`);
`NaN` modelled as 0, never exercised. -/
def sliceHexByte (s : String) (i : ℕ) : ℕ :=
  match (s.data.drop i).take 2 with
  | [c1, c2] => (parseHexPair? c1 c2).getD 0
  | _ => 0

/-- Remove a key from a JS `Map`. -/
def mapDelete {α β : Type} [BEq α] (m : List (α × β)) (k : α) : List (α × β) :=
  m.filter (fun p => ! (p.1 == k))

mutual

/-- Mutation of the first `findElement` match: apply `f` in place, mirroring
`findElement`'s traversal order. -/
def updateElementAt : List Element → String → (Element → Element) → List Element
  | [], _, _ => []
  | e :: rest, x, f =>
    if e.element_id = x then f e :: rest
    else if e.element_type = ElementType.container ∧ (findElement e.children x).isSome then
      updateInElement e x f :: rest
    else e :: updateElementAt rest x f

/-- `updateElementAt` inside one element's children. -/
def updateInElement : Element → String → (Element → Element) → Element
  | .mk i t d s v u st ch, x, f => .mk i t d s v u st (updateElementAt ch x f)

end

/-- `element.style.<k> = v` (initializing an absent style map to `{}`). -/
def Element.setStyle : Element → String → String → Element
  | .mk i t d s v u st ch, k, val =>
    .mk i t d s v u (some (mapSet (st.getD []) k val)) ch

/-- Mutation of the first data item found by id. -/
def updateFirstItem : List DataItem → String → (DataItem → DataItem) → List DataItem
  | [], _, _ => []
  | it :: rest, x, f => if it.id = x then f it :: rest else it :: updateFirstItem rest x f

/-- `OperationResult` of `operation-types.ts`. -/
structure OperationResult where
  success : Bool
  output : Option JsonValue
  error : Option String
deriving Repr

/-- A handler: context and resolved parameters to a thrown error or an
`OperationResult`, together with the context as mutated so far. -/
abbrev Handler := ExecutionContext → JsonValue → Except ExecError OperationResult × ExecutionContext

/-- The external capabilities the handlers await: font-URL resolution
(`getFontUrl`) and the generative-image service (`runReplicateImageCreator`'s
`prediction.output`, or the `${error}` rendering of a service failure). -/
structure Extern where
  fontUrl : String → String
  replicate : String → List JsonValue → Option JsonValue → Option JsonValue →
    Except String JsonValue

/-- `ensureColorInTheme` on the context, consuming one fresh id. -/
def ensureColorInCtx (ctx : ExecutionContext) (color : String) :
    Except ExecError String × ExecutionContext :=
  let cand := generateId "color" ctx.idCounter
  let r := ensureColorInTheme ctx.theme color cand
  (r.1, { ctx with theme := r.2, idCounter := ctx.idCounter + 1 })

/-- `ensureFontInTheme` on the context, consuming one fresh id. -/
def ensureFontInCtx (ext : Extern) (ctx : ExecutionContext) (fontName : String) :
    Except ExecError String × ExecutionContext :=
  let cand := generateId "font" ctx.idCounter
  let r := ensureFontInTheme ext.fontUrl ctx.theme fontName cand
  (r.1, { ctx with theme := r.2, idCounter := ctx.idCounter + 1 })

/-- Fresh element/data-item id from the context. -/
def freshIdIn (ctx : ExecutionContext) (pre : String) : String × ExecutionContext :=
  (generateId pre ctx.idCounter, { ctx with idCounter := ctx.idCounter + 1 })

/-- `handleCreateCanvas`: require truthy width/height, set the canvas, and
when a background color is given register it and insert the full-size
rectangle shape. -/
def handleCreateCanvas : Handler := fun ctx params =>
  let width := getField params "width"
  let height := getField params "height"
  let background_color := getField params "background_color"
  if ¬ jsTruthy width ∨ ¬ jsTruthy height then
    (.error (.validation "Canvas width and height are required"), ctx)
  else
    let w := (width.getD .null)
    let h := (height.getD .null)
    let ctx1 := { ctx with template := { ctx.template with
      canvas := { width := jsValToNum w, height := jsValToNum h } } }
    let step2 : Except ExecError Unit × ExecutionContext :=
      if jsTruthy background_color then
        let r := ensureColorInCtx ctx1 (jsValToString (background_color.getD .null))
        match r.1 with
        | .error e => (.error e, r.2)
        | .ok colorId =>
          let eid := freshIdIn r.2 "elem"
          let bgElement : Element := .mk eid.1 ElementType.shape none
            (some ShapeType.rectangle) none none
            (some [("width", "100%"), ("height", "100%"), ("background_color", colorId)]) []
          (.ok (), { eid.2 with template := { eid.2.template with
            elements := eid.2.template.elements ++ [bgElement] } })
      else (.ok (), ctx1)
    match step2 with
    | (.error e, ctx2) => (.error e, ctx2)
    | (.ok _, ctx2) =>
      (.ok { success := true,
             output := some (.obj [("width", w), ("height", h)]), error := none }, ctx2)

/-- `handleAddImageLayer`: create the image data item and its `data_item`
element at the given position. -/
def handleAddImageLayer : Handler := fun ctx params =>
  let layer_name := getField params "layer_name"
  let input_image := getField params "input_image"
  let x := getFieldD params "x" (.num 0)
  let y := getFieldD params "y" (.num 0)
  let width := getField params "width"
  let height := getField params "height"
  if ¬ jsTruthy layer_name ∨ ¬ jsTruthy input_image then
    (.error (.validation "layer_name and input_image are required"), ctx)
  else
    let nameStr := jsValToString (layer_name.getD .null)
    let did := freshIdIn ctx "data"
    let dataItem : DataItem :=
      { id := did.1, type := "image", display_name := nameStr,
        content := none, image_url := some (jsValToString (input_image.getD .null)) }
    let ctx1 := { did.2 with data := { did.2.data with
      data_items := did.2.data.data_items ++ [dataItem] } }
    let eid := freshIdIn ctx1 "elem"
    let style0 : ElementStyle :=
      [("position", "absolute"), ("left", jsValToString x ++ "px"),
       ("top", jsValToString y ++ "px")]
    let style1 := if jsTruthy width then
        style0 ++ [("width", match width.getD .null with
          | .num q => jsNumToString q ++ "px"
          | v => jsValToString v)]
      else style0
    let style2 := if jsTruthy height then
        style1 ++ [("height", match height.getD .null with
          | .num q => jsNumToString q ++ "px"
          | v => jsValToString v)]
      else style1
    let element : Element := .mk eid.1 ElementType.data_item (some did.1) none none none
      (some style2) []
    let ctx2 := { eid.2 with
      template := { eid.2.template with elements := eid.2.template.elements ++ [element] },
      layerMap := mapSet eid.2.layerMap nameStr eid.1 }
    (.ok { success := true,
           output := some (.obj [("elementId", .str eid.1), ("dataItemId", .str did.1)]),
           error := none }, ctx2)

/-- `handleAddTextLayer`: create the text data item and element; position with
priority anchor > explicit x/y > default full centering; bold/italic flags and
the optional composed text shadow. -/
def handleAddTextLayer (ext : Extern) : Handler := fun ctx params =>
  let layer_name := getField params "layer_name"
  let textValue := jsOrVal (getField params "text") (getField params "text_content")
  if ¬ jsTruthy layer_name ∨ ¬ jsTruthy textValue then
    (.error (.validation "layer_name and text are required"), ctx)
  else
    let nameStr := jsValToString (layer_name.getD .null)
    let fontValue := (jsOrVal (jsOrVal (getField params "font") (getField params "font_name"))
      (some (.str "Arial"))).getD .null
    let sizeValue := (jsOrVal (jsOrVal (getField params "size") (getField params "font_size"))
      (some (.num 16))).getD .null
    let alignValue := (jsOrVal (jsOrVal (getField params "alignment")
      (getField params "text_align")) (some (.str "left"))).getD .null
    let rFont := ensureFontInCtx ext ctx (jsValToString fontValue)
    match rFont.1 with
    | .error e => (.error e, rFont.2)
    | .ok fontId =>
      let rColor := ensureColorInCtx rFont.2
        (jsValToString (getFieldD params "color" (.str "#000000")))
      match rColor.1 with
      | .error e => (.error e, rColor.2)
      | .ok colorId =>
        let did := freshIdIn rColor.2 "data"
        let dataItem : DataItem :=
          { id := did.1, type := "text", display_name := nameStr,
            content := some (jsValToString (textValue.getD .null)), image_url := none }
        let ctx1 := { did.2 with data := { did.2.data with
          data_items := did.2.data.data_items ++ [dataItem] } }
        let offX := getFieldD params "offset_x" (.num 0)
        let offY := getFieldD params "offset_y" (.num 0)
        let anchor := getField params "anchor"
        let xPar := getField params "x"
        let yPar := getField params "y"
        let position? : Except ExecError (String × String × Option String) :=
          if jsTruthy anchor then
            let aStr := jsValToString (anchor.getD .null)
            let canvasWidth : ℚ := if ctx1.template.canvas.width ≠ (0 : ℚ) then
                ctx1.template.canvas.width else 800
            let canvasHeight : ℚ := if ctx1.template.canvas.height ≠ (0 : ℚ) then
                ctx1.template.canvas.height else 600
            if aStr = "center" ∨ aStr = "top-center" ∨ aStr = "bottom-center" then
              let tr := if aStr = "center" then
                  "translate(calc(-50% + " ++ jsValToString offX ++ "px), calc(-50% + " ++
                    jsValToString offY ++ "px))"
                else "translateX(calc(-50% + " ++ jsValToString offX ++ "px))"
              let top := if aStr = "center" then "50%"
                else if aStr = "top-center" then jsValToString offY ++ "px"
                else "calc(100% - " ++ jsValToString offY ++ "px)"
              .ok ("50%", top, some tr)
            else
              let estimatedHeight : ℚ := match sizeValue with
                | .num q => q
                | _ => 16
              match calculateAnchorPosition aStr canvasWidth canvasHeight 100
                  estimatedHeight (jsValToNum offX) (jsValToNum offY) with
              | .error e => .error e
              | .ok p => .ok (jsNumToString p.1 ++ "px", jsNumToString p.2 ++ "px", none)
          else if xPar.isSome ∨ yPar.isSome then
            .ok (jsValToString ((xPar.getD (.num 0))) ++ "px",
              jsValToString ((yPar.getD (.num 0))) ++ "px", none)
          else
            .ok ("50%", "50%", some "translate(-50%, -50%)")
        match position? with
        | .error e => (.error e, ctx1)
        | .ok pos =>
          let eid := freshIdIn ctx1 "elem"
          let style0 : ElementStyle :=
            [("position", "absolute"), ("left", pos.1), ("top", pos.2.1),
             ("font", fontId),
             ("font_size", match sizeValue with
               | .num q => jsNumToString q ++ "px"
               | v => jsValToString v),
             ("color", colorId), ("text_align", jsValToString alignValue)]
          let style1 := if jsTruthy (some (getFieldD params "bold" (.bool false))) then
              style0 ++ [("font_weight", "bold")] else style0
          let style2 := if jsTruthy (some (getFieldD params "italic" (.bool false))) then
              style1 ++ [("font_style", "italic")] else style1
          let style3 := match pos.2.2 with
            | some tr => style2 ++ [("transform", tr)]
            | none => style2
          let shadowRes : Except ExecError ElementStyle × ExecutionContext :=
            if jsTruthy (some (getFieldD params "shadow_enabled" (.bool false))) then
              let shadowColor := jsValToString (getFieldD params "shadow_color" (.str "#000000"))
              let rSh := ensureColorInCtx eid.2 shadowColor
              match rSh.1 with
              | .error e => (.error e, rSh.2)
              | .ok _ =>
                let shOp := jsValToNum (getFieldD params "shadow_opacity" (.num 1))
                let shadowColorWithOpacity :=
                  if shOp < 1 then
                    "rgba(" ++ toString (sliceHexByte shadowColor 1) ++ ", " ++
                      toString (sliceHexByte shadowColor 3) ++ ", " ++
                      toString (sliceHexByte shadowColor 5) ++ ", " ++
                      jsNumToString shOp ++ ")"
                  else shadowColor
                let sx := jsValToString (getFieldD params "shadow_offset_x" (.num 0))
                let sy := jsValToString (getFieldD params "shadow_offset_y" (.num 0))
                let sb := jsValToString (getFieldD params "shadow_blur" (.num 0))
                (.ok (style3 ++ [("text_shadow",
                  sx ++ "px " ++ sy ++ "px " ++ sb ++ "px " ++ shadowColorWithOpacity)]),
                  rSh.2)
            else (.ok style3, eid.2)
          match shadowRes with
          | (.error e, ctx2) => (.error e, ctx2)
          | (.ok styleF, ctx2) =>
            let element : Element := .mk eid.1 ElementType.data_item (some did.1)
              none none none (some styleF) []
            let ctx3 := { ctx2 with
              template := { ctx2.template with
                elements := ctx2.template.elements ++ [element] },
              layerMap := mapSet ctx2.layerMap nameStr eid.1 }
            (.ok { success := true,
                   output := some (.obj [("elementId", .str eid.1),
                     ("dataItemId", .str did.1)]), error := none }, ctx3)

/-- `handleEditTextLayer`: in-place patch of an existing text layer. -/
def handleEditTextLayer (ext : Extern) : Handler := fun ctx params =>
  let layer_name := getField params "layer_name"
  if ¬ jsTruthy layer_name then
    (.error (.validation "layer_name is required"), ctx)
  else
    let nameStr := jsValToString (layer_name.getD .null)
    match mapGet ctx.layerMap nameStr with
    | none => (.error (.reference ("Layer not found: " ++ nameStr)), ctx)
    | some elementId =>
      match findElement ctx.template.elements elementId with
      | none => (.error (.reference ("Element not found: " ++ elementId)), ctx)
      | some element =>
        if element.element_type ≠ ElementType.data_item then
          (.error (.validation ("Layer " ++ nameStr ++ " is not a text layer")), ctx)
        else
          match (ctx.data.data_items.find? (fun item =>
              decide (some item.id = element.data_item_id))) with
          | none => (.error (.validation ("Layer " ++ nameStr ++ " is not a text layer")), ctx)
          | some dataItem =>
            if dataItem.type ≠ "text" then
              (.error (.validation ("Layer " ++ nameStr ++ " is not a text layer")), ctx)
            else
              let ctx1 := match getField params "text_content" with
                | some tc => { ctx with data := { ctx.data with
                    data_items := updateFirstItem ctx.data.data_items dataItem.id
                      (fun it => { it with content := some (jsValToString tc) }) } }
                | none => ctx
              let fontStep : Except ExecError ExecutionContext :=
                match getField params "font_name" with
                | some fn =>
                  let rF := ensureFontInCtx ext ctx1 (jsValToString fn)
                  match rF.1 with
                  | .error e => .error e
                  | .ok fid => .ok { rF.2 with template := { rF.2.template with
                      elements := updateElementAt rF.2.template.elements elementId
                        (fun e => e.setStyle "font" fid) } }
                | none => .ok ctx1
              match fontStep with
              | .error e => (.error e, ctx1)
              | .ok ctx2 =>
                let ctx3 := match getField params "font_size" with
                  | some fs => { ctx2 with template := { ctx2.template with
                      elements := updateElementAt ctx2.template.elements elementId
                        (fun e => e.setStyle "font_size" (jsValToString fs)) } }
                  | none => ctx2
                let colorStep : Except ExecError ExecutionContext :=
                  match getField params "color" with
                  | some c =>
                    let rC := ensureColorInCtx ctx3 (jsValToString c)
                    match rC.1 with
                    | .error e => .error e
                    | .ok cid => .ok { rC.2 with template := { rC.2.template with
                        elements := updateElementAt rC.2.template.elements elementId
                          (fun e => e.setStyle "color" cid) } }
                  | none => .ok ctx3
                match colorStep with
                | .error e => (.error e, ctx3)
                | .ok ctx4 =>
                  let ctx5 := match getField params "text_align" with
                    | some ta => { ctx4 with template := { ctx4.template with
                        elements := updateElementAt ctx4.template.elements elementId
                          (fun e => e.setStyle "text_align" (jsValToString ta)) } }
                    | none => ctx4
                  (.ok { success := true,
                         output := some (.obj [("elementId", .str elementId)]),
                         error := none }, ctx5)

/-- `handleSetLayerVisibility`: toggle a `display` style. -/
def handleSetLayerVisibility : Handler := fun ctx params =>
  let layer_name := getField params "layer_name"
  let visible := getField params "visible"
  if ¬ jsTruthy layer_name ∨ visible.isNone then
    (.error (.validation "layer_name and visible are required"), ctx)
  else
    let nameStr := jsValToString (layer_name.getD .null)
    match mapGet ctx.layerMap nameStr with
    | none => (.error (.reference ("Layer not found: " ++ nameStr)), ctx)
    | some elementId =>
      match findElement ctx.template.elements elementId with
      | none => (.error (.reference ("Element not found: " ++ elementId)), ctx)
      | some _ =>
        let disp := if jsTruthy visible then "block" else "none"
        let ctx1 := { ctx with template := { ctx.template with
          elements := updateElementAt ctx.template.elements elementId
            (fun e => e.setStyle "display" disp) } }
        (.ok { success := true,
               output := some (.obj [("elementId", .str elementId),
                 ("visible", visible.getD .null)]), error := none }, ctx1)

/-- `handleDeleteLayer`: remove the element, its backing data item for
`data_item` elements, and the layer-map binding. -/
def handleDeleteLayer : Handler := fun ctx params =>
  let layer_name := getField params "layer_name"
  if ¬ jsTruthy layer_name then
    (.error (.validation "layer_name is required"), ctx)
  else
    let nameStr := jsValToString (layer_name.getD .null)
    match mapGet ctx.layerMap nameStr with
    | none => (.error (.reference ("Layer not found: " ++ nameStr)), ctx)
    | some elementId =>
      match findElement ctx.template.elements elementId with
      | none => (.error (.reference ("Element not found: " ++ elementId)), ctx)
      | some element =>
        let ctx1 :=
          match element.element_type, element.data_item_id with
          | ElementType.data_item, some d =>
            if d ≠ "" then
              { ctx with data := { ctx.data with
                  data_items := (ctx.data.data_items.takeWhile (fun it => it.id ≠ d)) ++
                    ((ctx.data.data_items.dropWhile (fun it => it.id ≠ d)).drop 1) } }
            else ctx
          | _, _ => ctx
        match removeElementFromTemplate ctx1.template elementId with
        | (none, _) =>
          (.error (.reference ("Failed to remove element: " ++ elementId)), ctx1)
        | (some _, t2) =>
          let ctx2 :=
            { ctx1 with template := t2, layerMap := mapDelete ctx1.layerMap nameStr }
          (.ok { success := true, output := some (.obj [("elementId", .str elementId)]),
                 error := none }, ctx2)

/-- `handleGenerateImage`: delegate to the generative-image capability and
return the resulting URL as the step output; failures are wrapped in a
`ValidationError`. -/
def handleGenerateImage (ext : Extern) : Handler := fun ctx params =>
  if ¬ jsTruthy (getField params "prompt") then
    (.error (.validation "prompt is required"), ctx)
  else
    match ext.replicate (jsValToString ((getField params "prompt").getD .null)) []
        (getField params "aspect_ratio") (getField params "output_format") with
    | .error estr => (.error (.validation ("Image generation failed: " ++ estr)), ctx)
    | .ok output =>
      match output with
      | .arr items =>
        (.ok { success := true, output := items.head?, error := none }, ctx)
      | .str s => (.ok { success := true, output := some (.str s), error := none }, ctx)
      | _ =>
        (.error (.validation
          "Image generation failed: ValidationError: Unexpected prediction output format"),
          ctx)

/-- `handleEditImage`: like `handleGenerateImage` with required input images. -/
def handleEditImage (ext : Extern) : Handler := fun ctx params =>
  let input_images := getField params "input_images"
  if ¬ jsTruthy input_images ∨ ¬ jsTruthy (getField params "prompt") then
    (.error (.validation "input_images and prompt are required"), ctx)
  else
    let imageArray := match input_images.getD .null with
      | .arr items => items
      | v => [v]
    match ext.replicate (jsValToString ((getField params "prompt").getD .null)) imageArray
        (getField params "aspect_ratio") (getField params "output_format") with
    | .error estr => (.error (.validation ("Image editing failed: " ++ estr)), ctx)
    | .ok output =>
      match output with
      | .arr items =>
        (.ok { success := true, output := items.head?, error := none }, ctx)
      | .str s => (.ok { success := true, output := some (.str s), error := none }, ctx)
      | _ =>
        (.error (.validation
          "Image editing failed: ValidationError: Unexpected prediction output format"),
          ctx)

/-- The five placeholder operations: always `not implemented yet`. -/
def handleNotImplemented (opName : String) : Handler := fun ctx _ =>
  (.error (.validation (opName ++ " operation is not implemented yet")), ctx)

/-- `handleSetLayerAnchor`: reposition by the anchor formula, relative to the
canvas or to another layer's box. -/
def handleSetLayerAnchor : Handler := fun ctx params =>
  let layer_name := getField params "layer_name"
  let anchor := getField params "anchor"
  if ¬ jsTruthy layer_name ∨ ¬ jsTruthy anchor then
    (.error (.validation "layer_name and anchor are required"), ctx)
  else
    let nameStr := jsValToString (layer_name.getD .null)
    match mapGet ctx.layerMap nameStr with
    | none => (.error (.reference ("Layer not found: " ++ nameStr)), ctx)
    | some elementId =>
      match findElement ctx.template.elements elementId with
      | none => (.error (.reference ("Element not found: " ++ elementId)), ctx)
      | some element =>
        let canvasWidth : ℚ := if ctx.template.canvas.width ≠ (0 : ℚ) then
            ctx.template.canvas.width else 800
        let canvasHeight : ℚ := if ctx.template.canvas.height ≠ (0 : ℚ) then
            ctx.template.canvas.height else 600
        let elementWidth := jsParseFloat (jsOrStr ((element.style.getD []).lookup "width") "100")
        let elementHeight := jsParseFloat (jsOrStr ((element.style.getD []).lookup "height") "100")
        let base? : Except ExecError (ℚ × ℚ × ℚ × ℚ) :=
          match getField params "relative_to" with
          | some rel =>
            if jsTruthy (some rel) then
              let relName := jsValToString rel
              match mapGet ctx.layerMap relName with
              | none => .error (.reference ("Relative layer not found: " ++ relName))
              | some relId =>
                match findElement ctx.template.elements relId with
                | none => .error (.reference ("Relative element not found: " ++ relId))
                | some relElement =>
                  .ok (jsParseFloat (jsOrStr ((relElement.style.getD []).lookup "width") "100"),
                    jsParseFloat (jsOrStr ((relElement.style.getD []).lookup "height") "100"),
                    jsParseFloat (jsOrStr ((relElement.style.getD []).lookup "left") "0"),
                    jsParseFloat (jsOrStr ((relElement.style.getD []).lookup "top") "0"))
            else .ok (canvasWidth, canvasHeight, 0, 0)
          | none => .ok (canvasWidth, canvasHeight, 0, 0)
        match base? with
        | .error e => (.error e, ctx)
        | .ok base =>
          match calculateAnchorPosition (jsValToString (anchor.getD .null)) base.1 base.2.1
              elementWidth elementHeight
              (jsValToNum (getFieldD params "offset_x" (.num 0)))
              (jsValToNum (getFieldD params "offset_y" (.num 0))) with
          | .error e => (.error e, ctx)
          | .ok p =>
            let fx := base.2.2.1 + p.1
            let fy := base.2.2.2 + p.2
            let ctx1 := { ctx with template := { ctx.template with
              elements := updateElementAt ctx.template.elements elementId (fun e =>
                ((e.setStyle "position" "absolute").setStyle "left"
                  (jsNumToString fx ++ "px")).setStyle "top" (jsNumToString fy ++ "px")) } }
            (.ok { success := true,
                   output := some (.obj [("elementId", .str elementId),
                     ("x", .num fx), ("y", .num fy)]), error := none }, ctx1)

/-- `handleCreateFlexContainer`: an empty container styled as a flex box. -/
def handleCreateFlexContainer : Handler := fun ctx params =>
  let container_name := getField params "container_name"
  if ¬ jsTruthy container_name then
    (.error (.validation "container_name is required"), ctx)
  else
    let nameStr := jsValToString (container_name.getD .null)
    let eid := freshIdIn ctx "elem"
    let gap := getFieldD params "gap" (.str "0px")
    let style0 : ElementStyle :=
      [("position", "absolute"),
       ("left", jsValToString (getFieldD params "x" (.num 0)) ++ "px"),
       ("top", jsValToString (getFieldD params "y" (.num 0)) ++ "px"),
       ("display", "flex"),
       ("flex_direction", jsValToString (getFieldD params "direction" (.str "row"))),
       ("justify_content", jsValToString (getFieldD params "justify" (.str "flex-start"))),
       ("align_items", jsValToString (getFieldD params "align" (.str "flex-start"))),
       ("gap", match gap with
         | .num q => jsNumToString q ++ "px"
         | v => jsValToString v)]
    let width := getField params "width"
    let height := getField params "height"
    let style1 := if jsTruthy width then
        style0 ++ [("width", match width.getD .null with
          | .num q => jsNumToString q ++ "px"
          | v => jsValToString v)]
      else style0
    let style2 := if jsTruthy height then
        style1 ++ [("height", match height.getD .null with
          | .num q => jsNumToString q ++ "px"
          | v => jsValToString v)]
      else style1
    let element : Element := .mk eid.1 ElementType.container none none none none
      (some style2) []
    let ctx1 := { eid.2 with
      template := { eid.2.template with elements := eid.2.template.elements ++ [element] },
      layerMap := mapSet eid.2.layerMap nameStr eid.1 }
    (.ok { success := true, output := some (.obj [("elementId", .str eid.1)]),
           error := none }, ctx1)

/-- `handleAddLayerToContainer`: the move primitive on named layers. -/
def handleAddLayerToContainer : Handler := fun ctx params =>
  let layer_name := getField params "layer_name"
  let container_name := getField params "container_name"
  if ¬ jsTruthy layer_name ∨ ¬ jsTruthy container_name then
    (.error (.validation "layer_name and container_name are required"), ctx)
  else
    let lname := jsValToString (layer_name.getD .null)
    let cname := jsValToString (container_name.getD .null)
    match mapGet ctx.layerMap lname with
    | none => (.error (.reference ("Layer not found: " ++ lname)), ctx)
    | some layerElementId =>
      match mapGet ctx.layerMap cname with
      | none => (.error (.reference ("Container not found: " ++ cname)), ctx)
      | some containerElementId =>
        let r := addElementToContainer ctx.template layerElementId containerElementId
        match r.1 with
        | .error e => (.error e, { ctx with template := r.2 })
        | .ok _ =>
          (.ok { success := true,
                 output := some (.obj [("layerElementId", .str layerElementId),
                   ("containerElementId", .str containerElementId)]), error := none },
            { ctx with template := r.2 })

/-- `handleSetFlexLayout`: patch flex properties on an existing container. -/
def handleSetFlexLayout : Handler := fun ctx params =>
  let container_name := getField params "container_name"
  if ¬ jsTruthy container_name then
    (.error (.validation "container_name is required"), ctx)
  else
    let nameStr := jsValToString (container_name.getD .null)
    match mapGet ctx.layerMap nameStr with
    | none => (.error (.reference ("Container not found: " ++ nameStr)), ctx)
    | some containerElementId =>
      match findElement ctx.template.elements containerElementId with
      | none => (.error (.reference ("Element not found: " ++ containerElementId)), ctx)
      | some container =>
        if container.element_type ≠ ElementType.container then
          (.error (.validation ("Element " ++ nameStr ++ " is not a container")), ctx)
        else
          let upd (k v : String) (c : ExecutionContext) : ExecutionContext :=
            { c with template := { c.template with
                elements := updateElementAt c.template.elements containerElementId
                  (fun e => e.setStyle k v) } }
          let ctx1 := upd "display" "flex" ctx
          let ctx2 := match getField params "direction" with
            | some d => upd "flex_direction" (jsValToString d) ctx1
            | none => ctx1
          let ctx3 := match getField params "justify" with
            | some j => upd "justify_content" (jsValToString j) ctx2
            | none => ctx2
          let ctx4 := match getField params "align" with
            | some a => upd "align_items" (jsValToString a) ctx3
            | none => ctx3
          let ctx5 := match getField params "gap" with
            | some g => upd "gap" (match g with
                | .num q => jsNumToString q ++ "px"
                | v => jsValToString v) ctx4
            | none => ctx4
          (.ok { success := true,
                 output := some (.obj [("containerElementId", .str containerElementId)]),
                 error := none }, ctx5)

/-- The closed `OPERATION_HANDLERS` registry. -/
def OPERATION_HANDLERS (ext : Extern) : String → Option Handler
  | "create_canvas" => some handleCreateCanvas
  | "add_image_layer" => some handleAddImageLayer
  | "add_text_layer" => some (handleAddTextLayer ext)
  | "edit_text_layer" => some (handleEditTextLayer ext)
  | "set_layer_visibility" => some handleSetLayerVisibility
  | "delete_layer" => some handleDeleteLayer
  | "generate_image" => some (handleGenerateImage ext)
  | "edit_image" => some (handleEditImage ext)
  | "resize_image" => some (handleNotImplemented "resize_image")
  | "crop_image" => some (handleNotImplemented "crop_image")
  | "remove_background" => some (handleNotImplemented "remove_background")
  | "upscale" => some (handleNotImplemented "upscale")
  | "segment" => some (handleNotImplemented "segment")
  | "set_layer_anchor" => some handleSetLayerAnchor
  | "create_flex_container" => some handleCreateFlexContainer
  | "add_layer_to_container" => some handleAddLayerToContainer
  | "set_flex_layout" => some handleSetFlexLayout
  | _ => none

/-- One pipeline operation. -/
structure Operation where
  step : ℤ
  operation : String
  parameters : JsonValue
deriving Repr

/-- A message sent on the progress/result channel. -/
inductive WsMessage where
  | progress (currentStep totalSteps : ℤ) (operation message : String)
  | complete (sceneId scenePath : String) (files : List String) (preview : RenderResult)
  | failed (step : ℤ) (operation error : String)
deriving DecidableEq, Repr

/-- The fresh context built at the top of `executeOperations`. -/
def initialContext (sceneId sceneName : String) (total : ℤ) : ExecutionContext :=
  { sceneId := sceneId, sceneName := sceneName,
    data := { scene_id := sceneId, data_items := [] },
    template := { template_id := sceneId ++ "_template",
                  template_name := sceneName ++ " Template",
                  canvas := { width := 800, height := 600 }, elements := [] },
    theme := { theme_id := sceneId ++ "_theme", theme_name := sceneName ++ " Theme",
               color_palette := [], font_palette := [] },
    currentStep := 0, totalSteps := total, layerMap := [], operationOutputs := [],
    idCounter := 0 }

/-- The sequential step loop of `executeOperations`: per step, the progress
message, the registry lookup, placeholder resolution, the handler call, and
output recording.  Returns the messages sent, the steps whose handler was
actually invoked, and the final context or the aborting error. -/
def runSteps (ext : Extern) : List Operation → ExecutionContext → ℤ →
    List WsMessage × List ℤ × Except ExecError ExecutionContext
  | [], ctx, _ => ([], [], .ok ctx)
  | op :: rest, ctx, total =>
    let ctxA := { ctx with currentStep := op.step }
    let progressMsg := WsMessage.progress op.step total op.operation
      ("Executing " ++ op.operation ++ "...")
    match OPERATION_HANDLERS ext op.operation with
    | none =>
      ([progressMsg], [], .error (.validation ("Unknown operation: " ++ op.operation)))
    | some handler =>
      match resolveParameters ctxA.operationOutputs op.parameters with
      | .error e => ([progressMsg], [], .error e)
      | .ok resolvedParams =>
        match handler ctxA resolvedParams with
        | (.error e, _) => ([progressMsg], [op.step], .error e)
        | (.ok result, ctx2) =>
          if ¬ result.success then
            ([progressMsg], [op.step],
              .error (.generic (jsOrStr result.error "Operation failed")))
          else
            let ctx3 := match result.output with
              | some out => { ctx2 with
                  operationOutputs := mapSet ctx2.operationOutputs op.step out }
              | none => ctx2
            match runSteps ext rest ctx3 total with
            | (msgs, invoked, res) => (progressMsg :: msgs, op.step :: invoked, res)

/-- The `catch` block of `executeOperations`.  `operations.findIndex(op =>
op.step === error.step) + 1 || 0`: no error in the repository ever carries a
`.step` property and every operation's `step` is a number, so the predicate
is constantly false — `findIndex` gives -1, `-1 + 1` gives 0, `0 || 0` gives
0; `error.operation` is likewise never set, so the name falls back to
`'unknown'`. -/
def failureMessage (ops : List Operation) (e : ExecError) : WsMessage :=
  let jsIdx : ℤ := match ops.findIdx? (fun _ => false) with
    | some i => (i : ℤ)
    | none => -1
  let stepNum := jsIdx + 1
  .failed (if stepNum ≠ 0 then stepNum else 0) "unknown"
    (jsOrStr (some e.message) "Unknown error occurred")

/-- `executeOperations`: build the context, run the steps, validate, persist
(modelled from the spec: the persistence capability writes under
`scenes/<sceneId>` and is represented by its path strings only), render the
preview, and send completion — or the failure message on any error. -/
def executeOperations (ext : Extern) (sceneId sceneName : String)
    (operations : List Operation) : List WsMessage :=
  let ctx0 := initialContext sceneId sceneName (operations.length : ℤ)
  match runSteps ext operations ctx0 (operations.length : ℤ) with
  | (msgs, _, .error e) => msgs ++ [failureMessage operations e]
  | (msgs, _, .ok ctx) =>
    match validateScene ctx with
    | .error e => msgs ++ [failureMessage operations e]
    | .ok _ =>
      let scenePath := "scenes/" ++ ctx.sceneId
      let preview := renderScene
        { data := ctx.data, template := ctx.template, theme := ctx.theme }
      msgs ++ [WsMessage.complete ctx.sceneId scenePath
        [scenePath ++ "/data.json", scenePath ++ "/template.json",
         scenePath ++ "/theme.json", scenePath ++ "/scene.json"] preview]

/-- Concrete external capabilities for the scenario runs: no Google-hosted
fonts (local-path fallback), no image service. -/
def sampleExtern : Extern :=
  { fontUrl := fun n => "fonts/" ++ n ++ ".otf",
    replicate := fun _ _ _ _ => .error "service unavailable" }

/-- The C7 scenario: `create_canvas{1240, 1748, #FFFF00}` then
`add_text_layer{title, Hello, center}`. -/
def scenarioOps : List Operation :=
  [{ step := 1, operation := "create_canvas",
     parameters := .obj [("width", .num 1240), ("height", .num 1748),
       ("background_color", .str "#FFFF00")] },
   { step := 2, operation := "add_text_layer",
     parameters := .obj [("layer_name", .str "title"), ("text", .str "Hello"),
       ("anchor", .str "center")] }]

/-- The C7 scenario run through the pipeline's step loop. -/
def scenarioRun : List WsMessage × List ℤ × Except ExecError ExecutionContext :=
  runSteps sampleExtern scenarioOps (initialContext "s" "S" 2) 2

/-- Extract the context of a successful run. -/
def ctxOrInitial : Except ExecError ExecutionContext → ExecutionContext
  | .ok c => c
  | .error _ => initialContext "" "" 0

/-- The context produced by the C7 scenario. -/
def scenarioCtx : ExecutionContext := ctxOrInitial scenarioRun.2.2

/-- Fallback element for list indexing in the scenario statements. -/
def dummyElement : Element := .mk "" ElementType.shape none none none none none []

/-- External capabilities for the C1 failing run: the image service resolves
every call to a fixed URL. -/
def c1Extern : Extern :=
  { fontUrl := fun n => "fonts/" ++ n ++ ".otf",
    replicate := fun _ _ _ _ => .ok (.str "https://img/out.png") }

/-- The C1 failing input: five steps, the third being the always-failing
`resize_image` placeholder. -/
def fiveOps : List Operation :=
  [{ step := 1, operation := "generate_image", parameters := .obj [("prompt", .str "p")] },
   { step := 2, operation := "generate_image", parameters := .obj [("prompt", .str "p")] },
   { step := 3, operation := "resize_image", parameters := .obj [] },
   { step := 4, operation := "generate_image", parameters := .obj [("prompt", .str "p")] },
   { step := 5, operation := "generate_image", parameters := .obj [("prompt", .str "p")] }]

/-- Counterexample fixture: a styled shape `c`. -/
def sampleElemC9c : Element :=
  .mk "c" ElementType.shape none none none none (some [("color", "red")]) []

/-- Counterexample fixture: container `b` holding `c`. -/
def sampleElemC9b : Element :=
  .mk "b" ElementType.container none none none none (some [("left", "0px")]) [sampleElemC9c]

/-- Counterexample fixture: container `a` holding `b`. -/
def sampleElemC9a : Element :=
  .mk "a" ElementType.container none none none none (some [("top", "1px")]) [sampleElemC9b]

/-- Witness fixture: a theme with empty palettes. -/
def sampleThemeEmpty : Theme :=
  { theme_id := "t", theme_name := "T", color_palette := [], font_palette := [] }

/-- Witness fixture: the theme after registering yellow on the empty theme. -/
def sampleThemeYellow : Theme :=
  { theme_id := "t", theme_name := "T",
    color_palette := [{ id := "idA", name := "color_1", r := 255, g := 255, b := 0, a := 1 }],
    font_palette := [] }

/-- Witness fixture: a full 16-entry color palette (16 distinct reds). -/
def sampleTheme16 : Theme :=
  { theme_id := "t", theme_name := "T",
    color_palette := (List.range 16).map (fun i =>
      { id := toString i, name := toString i, r := (i : ℚ), g := 0, b := 0, a := 1 }),
    font_palette := [] }

/-- Counterexample fixture: a context whose canvas has a negative width (not a
positive one), empty palettes and no elements. -/
def sampleCtxNegCanvas : ExecutionContext :=
  { sceneId := "s", sceneName := "S",
    data := { scene_id := "s", data_items := [] },
    template := { template_id := "t", template_name := "T",
                  canvas := { width := -5, height := 600 }, elements := [] },
    theme := sampleThemeEmpty,
    currentStep := 0, totalSteps := 0, layerMap := [], operationOutputs := [],
    idCounter := 0 }

/-- Counterexample fixture: a context holding one `data_item` element whose
`data_item_id` is the empty string, with no data items at all. -/
def sampleCtxEmptyRef : ExecutionContext :=
  { sceneId := "s", sceneName := "S",
    data := { scene_id := "s", data_items := [] },
    template := { template_id := "t", template_name := "T",
                  canvas := { width := 800, height := 600 },
                  elements := [.mk "e1" ElementType.data_item (some "") none none
                    none none []] },
    theme := sampleThemeEmpty,
    currentStep := 0, totalSteps := 0, layerMap := [], operationOutputs := [],
    idCounter := 0 }

/-- Witness fixture: the inner container `b`. -/
def sampleElemB : Element :=
  .mk "b" ElementType.container none none none none none []

/-- Witness fixture: container `a` holding container `b`. -/
def sampleElemA : Element :=
  .mk "a" ElementType.container none none none none none [sampleElemB]

/-- Witness fixture: a template whose only root element is container `a`. -/
def sampleTemplateAB : Template :=
  { template_id := "t", template_name := "T",
    canvas := { width := 800, height := 600 }, elements := [sampleElemA] }

/-- Witness fixture: the same template with its element list emptied. -/
def sampleTemplateDrained : Template :=
  { template_id := "t", template_name := "T",
    canvas := { width := 800, height := 600 }, elements := [] }

/-- Expected palette state after appending a fresh color (used to state the
dedup theorem; the appended display name is the generated `color_<n+1>`). -/
def appendedColorTheme (theme : Theme) (q : RGBA) (freshId : String) : Theme :=
  { theme with color_palette := theme.color_palette ++
      [{ id := freshId, name := "color_" ++ toString (theme.color_palette.length + 1),
         r := q.r, g := q.g, b := q.b, a := q.a }] }

/-! # Theorems -/

mutual

/-- Helper: values without placeholders pass through `resolveParameters`
unchanged. -/
theorem resolveParameters_noPh (outputs : List (ℤ × JsonValue)) :
    ∀ p, noPlaceholders p = true → resolveParameters outputs p = .ok p
  | .null, _ => rfl
  | .bool _, _ => rfl
  | .num _, _ => rfl
  | .str s, h => by
    have hs : placeholderStep? s = none := by
      simpa [noPlaceholders, Option.isNone_iff_eq_none] using h
    simp [resolveParameters, hs]
  | .arr items, h => by
    have hl := resolveParamList_noPh outputs items (by simpa [noPlaceholders] using h)
    simp [resolveParameters, hl, Except.map]
  | .obj fields, h => by
    have hf := resolveParamFields_noPh outputs fields (by simpa [noPlaceholders] using h)
    simp [resolveParameters, hf, Except.map]

/-- Helper: placeholder-free arrays pass through item-wise resolution. -/
theorem resolveParamList_noPh (outputs : List (ℤ × JsonValue)) :
    ∀ l, noPlaceholdersList l = true → resolveParamList outputs l = .ok l
  | [], _ => rfl
  | v :: rest, h => by
    have h' : noPlaceholders v = true ∧ noPlaceholdersList rest = true := by
      simpa [noPlaceholdersList, Bool.and_eq_true] using h
    have h1 := resolveParameters_noPh outputs v h'.1
    have h2 := resolveParamList_noPh outputs rest h'.2
    simp [resolveParamList, h1, h2]

/-- Helper: placeholder-free objects pass through field-wise resolution. -/
theorem resolveParamFields_noPh (outputs : List (ℤ × JsonValue)) :
    ∀ l, noPlaceholdersFields l = true → resolveParamFields outputs l = .ok l
  | [], _ => rfl
  | (k, v) :: rest, h => by
    have h' : noPlaceholders v = true ∧ noPlaceholdersFields rest = true := by
      simpa [noPlaceholdersFields, Bool.and_eq_true] using h
    have h1 := resolveParameters_noPh outputs v h'.1
    have h2 := resolveParamFields_noPh outputs rest h'.2
    simp [resolveParamFields, h1, h2]

end

/-- C2: for every theme and any two color literals parsing to the same
(r,g,b,a), registering them in sequence returns the same id both times and
grows the palette by exactly one entry (the match is on the exact channel
values, the stored display name being the generated `color_<n+1>`, never the
source of a match). -/
theorem ensureColorInTheme_dedup (theme : Theme) (c1 c2 f1 f2 : String) (q : RGBA)
    (h1 : hexToRGBA c1 = .ok q) (h2 : hexToRGBA c2 = .ok q)
    (habs : theme.color_palette.find? (fun c =>
      decide (c.r = q.r) && decide (c.g = q.g) &&
      decide (c.b = q.b) && decide (c.a = q.a)) = none)
    (hroom : theme.color_palette.length < 16) :
    ensureColorInTheme theme c1 f1 = (.ok f1, appendedColorTheme theme q f1) ∧
    ensureColorInTheme (appendedColorTheme theme q f1) c2 f2 =
      (.ok f1, appendedColorTheme theme q f1) ∧
    (appendedColorTheme theme q f1).color_palette.length =
      theme.color_palette.length + 1 := by
  have hn : ¬ (theme.color_palette.length ≥ 16) := by omega
  refine ⟨?_, ?_, ?_⟩
  · simp only [ensureColorInTheme, h1, habs, appendedColorTheme]
    rw [if_neg hn]
  · simp only [ensureColorInTheme, h2, appendedColorTheme, List.find?_append, habs,
      Option.none_or]
    simp [List.find?_cons]
  · simp [appendedColorTheme]

/-- Witness for C2 at the empty theme with `#FFFF00` written in two cases. -/
theorem ensureColorInTheme_dedup_witness :
    ensureColorInTheme sampleThemeEmpty "#FFFF00" "idA" = (.ok "idA", sampleThemeYellow) ∧
    ensureColorInTheme sampleThemeYellow "#ffff00" "idB" = (.ok "idA", sampleThemeYellow) ∧
    sampleThemeYellow.color_palette.length = sampleThemeEmpty.color_palette.length + 1 := by
  have h := ensureColorInTheme_dedup sampleThemeEmpty "#FFFF00" "#ffff00" "idA" "idB"
    ⟨255, 255, 0, 1⟩ (by decide) (by decide) (by decide) (by decide)
  have heq : appendedColorTheme sampleThemeEmpty ⟨255, 255, 0, 1⟩ "idA" = sampleThemeYellow := by
    decide
  rw [heq] at h
  exact h

/-- C3: a 17th distinct color on a full 16-entry palette fails with the
capacity `ValidationError` and leaves the palette untouched. -/
theorem ensureColorInTheme_capacity (theme : Theme) (c f : String) (q : RGBA)
    (h : hexToRGBA c = .ok q)
    (habs : theme.color_palette.find? (fun col =>
      decide (col.r = q.r) && decide (col.g = q.g) &&
      decide (col.b = q.b) && decide (col.a = q.a)) = none)
    (hfull : theme.color_palette.length = 16) :
    ensureColorInTheme theme c f =
      (.error (.validation "Color palette limit reached (max 16 colors)"), theme) := by
  have hge : theme.color_palette.length ≥ 16 := by omega
  simp only [ensureColorInTheme, h, habs]
  rw [if_pos hge]

/-- Witness for C3 on a concrete full palette. -/
theorem ensureColorInTheme_capacity_witness :
    ensureColorInTheme sampleTheme16 "#C80000" "idNew" =
      (.error (.validation "Color palette limit reached (max 16 colors)"), sampleTheme16) :=
  ensureColorInTheme_capacity sampleTheme16 "#C80000" "idNew" ⟨200, 0, 0, 1⟩
    (by decide) (by decide) (by decide)

/-- C4: `resolveParameters` replaces an exact `$output_of_step_N` string by the
recorded output of step `N`, fails with a `ValidationError` when step `N`
recorded no output, recurses through nested objects and arrays, and passes
every placeholder-free value through unchanged. -/
theorem resolveParameters_placeholder_spec (outputs : List (ℤ × JsonValue)) :
    (∀ s n v, placeholderStep? s = some n → mapGet outputs (n : ℤ) = some v →
      resolveParameters outputs (.str s) = .ok v) ∧
    (∀ s n, placeholderStep? s = some n → mapGet outputs (n : ℤ) = none →
      resolveParameters outputs (.str s) =
        .error (.validation ("No output found for step " ++ toString n))) ∧
    (∀ p, noPlaceholders p = true → resolveParameters outputs p = .ok p) ∧
    (∀ key s n v, placeholderStep? s = some n → mapGet outputs (n : ℤ) = some v →
      resolveParameters outputs (.obj [(key, .arr [.str s])]) =
        .ok (.obj [(key, .arr [v])])) := by
  refine ⟨?_, ?_, resolveParameters_noPh outputs, ?_⟩
  · intro s n v hs hv
    simp only [resolveParameters, hs, hv]
  · intro s n hs hv
    simp only [resolveParameters, hs, hv]
  · intro key s n v hs hv
    simp only [resolveParameters, resolveParamFields, resolveParamList, hs, hv]
    rfl

/-- Witness for C4: `{2 → "https://x/img.png"}` resolves `$output_of_step_2`
and rejects `$output_of_step_9`. -/
theorem resolveParameters_placeholder_witness :
    resolveParameters [((2 : ℤ), .str "https://x/img.png")] (.str "$output_of_step_2") =
      .ok (.str "https://x/img.png") ∧
    resolveParameters [((2 : ℤ), .str "https://x/img.png")] (.str "$output_of_step_9") =
      .error (.validation "No output found for step 9") := by
  constructor
  · exact (resolveParameters_placeholder_spec _).1 "$output_of_step_2" 2
      (.str "https://x/img.png") rfl rfl
  · exact (resolveParameters_placeholder_spec _).2.1 "$output_of_step_9" 9 rfl rfl

/-- C5: the nine-point anchor rule with added offsets, the two concrete spec
examples, and the hard validation error on any unknown anchor name. -/
theorem calculateAnchorPosition_spec :
    (∀ W H w h ox oy : ℚ,
      calculateAnchorPosition "center" W H w h ox oy =
        .ok ((W - w) / 2 + ox, (H - h) / 2 + oy) ∧
      calculateAnchorPosition "top-left" W H w h ox oy = .ok (0 + ox, 0 + oy) ∧
      calculateAnchorPosition "top-center" W H w h ox oy = .ok ((W - w) / 2 + ox, 0 + oy) ∧
      calculateAnchorPosition "top-right" W H w h ox oy = .ok (W - w + ox, 0 + oy) ∧
      calculateAnchorPosition "center-left" W H w h ox oy = .ok (0 + ox, (H - h) / 2 + oy) ∧
      calculateAnchorPosition "center-right" W H w h ox oy =
        .ok (W - w + ox, (H - h) / 2 + oy) ∧
      calculateAnchorPosition "bottom-left" W H w h ox oy = .ok (0 + ox, H - h + oy) ∧
      calculateAnchorPosition "bottom-center" W H w h ox oy =
        .ok ((W - w) / 2 + ox, H - h + oy) ∧
      calculateAnchorPosition "bottom-right" W H w h ox oy =
        .ok (W - w + ox, H - h + oy)) ∧
    calculateAnchorPosition "center" 1000 1000 100 50 0 0 = .ok (450, 475) ∧
    calculateAnchorPosition "bottom-right" 1000 1000 100 50 10 (-10) = .ok (910, 940) ∧
    (∀ (s : String) (W H w h ox oy : ℚ),
      jsToLowerCase s ∉ (["center", "top-left", "top-center", "top-right", "center-left",
        "center-right", "bottom-left", "bottom-center", "bottom-right"] : List String) →
      calculateAnchorPosition s W H w h ox oy =
        .error (.validation ("Unknown anchor point: " ++ s))) := by
  have base : ∀ W H w h ox oy : ℚ,
      calculateAnchorPosition "center" W H w h ox oy =
        .ok ((W - w) / 2 + ox, (H - h) / 2 + oy) ∧
      calculateAnchorPosition "top-left" W H w h ox oy = .ok (0 + ox, 0 + oy) ∧
      calculateAnchorPosition "top-center" W H w h ox oy = .ok ((W - w) / 2 + ox, 0 + oy) ∧
      calculateAnchorPosition "top-right" W H w h ox oy = .ok (W - w + ox, 0 + oy) ∧
      calculateAnchorPosition "center-left" W H w h ox oy = .ok (0 + ox, (H - h) / 2 + oy) ∧
      calculateAnchorPosition "center-right" W H w h ox oy =
        .ok (W - w + ox, (H - h) / 2 + oy) ∧
      calculateAnchorPosition "bottom-left" W H w h ox oy = .ok (0 + ox, H - h + oy) ∧
      calculateAnchorPosition "bottom-center" W H w h ox oy =
        .ok ((W - w) / 2 + ox, H - h + oy) ∧
      calculateAnchorPosition "bottom-right" W H w h ox oy =
        .ok (W - w + ox, H - h + oy) := by
    intro W H w h ox oy
    exact ⟨rfl, rfl, rfl, rfl, rfl, rfl, rfl, rfl, rfl⟩
  refine ⟨base, ?_, ?_, ?_⟩
  · rw [(base 1000 1000 100 50 0 0).1]
    simp only [Except.ok.injEq, Prod.mk.injEq]
    norm_num
  · rw [(base 1000 1000 100 50 10 (-10)).2.2.2.2.2.2.2.2]
    simp only [Except.ok.injEq, Prod.mk.injEq]
    norm_num
  · intro s W H w h ox oy hs
    simp only [List.mem_cons, List.not_mem_nil, or_false, not_or] at hs
    obtain ⟨n1, n2, n3, n4, n5, n6, n7, n8, n9⟩ := hs
    simp only [calculateAnchorPosition, beq_iff_eq]
    rw [if_neg n1, if_neg n2, if_neg n3, if_neg n4, if_neg n5, if_neg n6, if_neg n7,
      if_neg n8, if_neg n9]

/-- Witness for C5's unknown-anchor clause. -/
theorem calculateAnchorPosition_spec_witness :
    calculateAnchorPosition "diagonal" 1000 1000 100 50 0 0 =
      .error (.validation ("Unknown anchor point: " ++ "diagonal")) :=
  calculateAnchorPosition_spec.2.2.2 "diagonal" 1000 1000 100 50 0 0 (by decide)

mutual

/-- Helper: `checkElement` errs exactly on a bad data-item reference in the
subtree. -/
theorem checkElement_isErr (ids : List String) :
    ∀ e, isErr (checkElement ids e) = elemBadRef ids e
  | .mk i t did s v u st ch => by
    have hrec := checkElementList_isErr ids ch
    simp only [checkElement, elemBadRef]
    cases t <;> cases did
    case data_item.some =>
      rename_i d
      by_cases hd : d = ""
      · simp [hd, hrec]
      · by_cases hmem : (ids.any fun i => decide (i = d)) = true
        · simp [hd, hmem, hrec]
        · have hm2 : (ids.any fun i => decide (i = d)) = false :=
            Bool.eq_false_iff.mpr hmem
          simp [hd, hm2, isErr]
    all_goals simp [hrec]

/-- Helper: `checkElementList` errs exactly on a bad reference in the list. -/
theorem checkElementList_isErr (ids : List String) :
    ∀ es, isErr (checkElementList ids es) = elemBadRefList ids es
  | [] => rfl
  | e :: rest => by
    have h1 := checkElement_isErr ids e
    have h2 := checkElementList_isErr ids rest
    cases hce : checkElement ids e with
    | error err =>
      have : elemBadRef ids e = true := by rw [← h1, hce]; rfl
      simp [checkElementList, hce, elemBadRefList, this, isErr]
    | ok _ =>
      have : elemBadRef ids e = false := by rw [← h1, hce]; rfl
      simp [checkElementList, hce, elemBadRefList, this, h2]

end

/-- C6 (amended): the final structural validation fails iff the canvas has
zero width or zero height, or the color palette exceeds 16 entries, or the
font palette exceeds 8 entries, or some `data_item` element anywhere in the
tree carries a truthy `data_item_id` absent from the scene data. -/
theorem validateScene_errs_iff (ctx : ExecutionContext) :
    isErr (validateScene ctx) = true ↔
      (ctx.template.canvas.width = 0 ∨ ctx.template.canvas.height = 0 ∨
        16 < ctx.theme.color_palette.length ∨ 8 < ctx.theme.font_palette.length ∨
        elemBadRefList (ctx.data.data_items.map (fun d => d.id))
          ctx.template.elements = true) := by
  simp only [validateScene]
  split_ifs with h1 h2 h3
  · simp [isErr]
    tauto
  · simp [isErr]
    omega
  · simp [isErr]
    omega
  · rw [checkElementList_isErr]
    constructor
    · intro h
      tauto
    · intro h
      rcases h with h | h | h | h | h
      · exact absurd (Or.inl h) h1
      · exact absurd (Or.inr h) h1
      · omega
      · omega
      · exact h

/-- C6 counterexample: a canvas with a negative (hence non-positive) width
passes validation, and so does a `data_item` element whose `data_item_id` is
the empty string though no data item exists at all — the claim as stated
(validation fails iff the canvas lacks positive dimensions, or …) is false on
both. -/
theorem validateScene_counterexample :
    validateScene sampleCtxNegCanvas = .ok () ∧
    sampleCtxNegCanvas.template.canvas.width < 0 ∧
    validateScene sampleCtxEmptyRef = .ok () ∧
    (findElement sampleCtxEmptyRef.template.elements "e1").isSome = true ∧
    sampleCtxEmptyRef.data.data_items = [] := by
  refine ⟨by decide, by decide, by decide, by decide, rfl⟩

/-- C8 (amended): the corrected top of every imported text entry equals the
spec formula `mm-to-px(yMm) − offset` (with the per-family metrics and the
documented fallback triple) *rounded to one decimal place*; `mm-to-px` itself
rounds to whole pixels at 300 DPI (1 mm = 300/25.4 px); unknown families fall
back to the default metric triple. -/
theorem textTopPx_spec :
    (∀ fontName : String, ∀ fontSizePt yMm lineSpacing : ℚ,
      textTopPx fontName fontSizePt yMm lineSpacing =
        (jsRound (specCorrectedTopExact fontName (ptToPx fontSizePt) lineSpacing yMm
          * 10) : ℚ) / 10) ∧
    MM_TO_PX = 300 / 25.4 ∧
    (∀ mm : ℚ, mmToPx mm = (jsRound (mm * (300 / 25.4)) : ℚ)) ∧
    (∀ name : String, mapGet FONT_METRICS (jsToLowerCase name) = none →
      getFontMetrics name = defaultFontMetrics) := by
  refine ⟨?_, rfl, ?_, ?_⟩
  · intro fontName fontSizePt yMm lineSpacing
    rfl
  · intro mm
    rfl
  · intro name h
    simp [getFontMetrics, h]

/-- Witness for C8's fallback clause and rounding equation at a concrete
entry (Arial, 12 pt, y = 10 mm, line-height 1.2). -/
theorem textTopPx_spec_witness :
    getFontMetrics "NoSuchFamily" = defaultFontMetrics ∧
    textTopPx "Arial" 12 10 (6/5) =
      (jsRound (specCorrectedTopExact "Arial" (ptToPx 12) (6/5) 10 * 10) : ℚ) / 10 := by
  constructor
  · exact textTopPx_spec.2.2.2 "NoSuchFamily" (by decide)
  · exact textTopPx_spec.1 "Arial" 12 10 (6/5)

/-- C8 counterexample: at Arial, 12 pt, y = 10 mm, line-height 1.2 the code's
corrected top is 106.5 px while the exact `mm-to-px(yMm) − offset` of the
claim is 109037/1024 ≈ 106.4814 px — the two differ, because the code rounds
to one decimal place. -/
theorem textTopPx_counterexample :
    textTopPx "Arial" 12 10 (6/5) = 213/2 ∧
    specCorrectedTopExact "Arial" (ptToPx 12) (6/5) 10 = 109037/1024 ∧
    textTopPx "Arial" 12 10 (6/5) ≠ specCorrectedTopExact "Arial" (ptToPx 12) (6/5) 10 := by
  have hm : getFontMetrics "Arial" = ⟨1854/2048, 434/2048, 1467/2048⟩ := rfl
  refine ⟨?_, ?_, ?_⟩
  · norm_num [textTopPx, capHeightOffsetPx, hm, mmToPx, ptToPx, jsRound, MM_TO_PX,
      PT_TO_PX, DPI]
  · norm_num [specCorrectedTopExact, hm, mmToPx, ptToPx, jsRound, MM_TO_PX, PT_TO_PX, DPI]
  · norm_num [textTopPx, specCorrectedTopExact, capHeightOffsetPx, hm, mmToPx, ptToPx,
      jsRound, MM_TO_PX, PT_TO_PX, DPI]

mutual

/-- Helper: a successful removal splits the id-count between the removed
subtree and the remaining list. -/
theorem countIds_remove (eid x : String) :
    ∀ (es : List Element) (e : Element) (es2 : List Element),
      removeElementFromArray es eid = (some e, es2) →
      countIds es x = countInElem e x + countIds es2 x
  | [], e, es2, h => by
    simp [removeElementFromArray] at h
  | e0 :: rest, e, es2, h => by
    simp only [removeElementFromArray] at h
    by_cases hid : e0.element_id = eid
    · rw [if_pos hid] at h
      injection h with h1 h2
      injection h1 with h1
      subst h1
      subst h2
      simp [countIds]
    · rw [if_neg hid] at h
      cases hrc : removeFromChildren e0 eid with
      | mk fnd e02 =>
        rw [hrc] at h
        cases fnd with
        | some f =>
          dsimp only at h
          injection h with h1 h2
          injection h1 with h1
          subst h1
          subst h2
          have hc := countInElem_removeFrom eid x e0 f e02 hrc
          simp only [countIds]
          omega
        | none =>
          dsimp only at h
          cases htl : removeElementFromArray rest eid with
          | mk r rest2 =>
            rw [htl] at h
            dsimp only at h
            injection h with h1 h2
            subst h1
            subst h2
            have := countIds_remove eid x rest e rest2 htl
            simp only [countIds]
            omega

/-- Helper: removal from inside one element splits its subtree id-count. -/
theorem countInElem_removeFrom (eid x : String) :
    ∀ (el f el2 : Element),
      removeFromChildren el eid = (some f, el2) →
      countInElem el x = countInElem f x + countInElem el2 x
  | .mk i t d s v u st ch, f, el2, h => by
    simp only [removeFromChildren] at h
    by_cases ht : t = ElementType.container
    · rw [if_pos ht] at h
      cases hrm : removeElementFromArray ch eid with
      | mk r newCh =>
        rw [hrm] at h
        cases r with
        | some g =>
          dsimp only at h
          injection h with h1 h2
          injection h1 with h1
          rw [h1] at hrm
          subst h2
          have hl := countIds_remove eid x ch f newCh hrm
          simp only [countInElem, if_pos ht]
          omega
        | none =>
          dsimp only at h
          injection h with h1 h2
          exact Option.noConfusion h1
    · rw [if_neg ht] at h
      injection h with h1 h2
      exact Option.noConfusion h1

end

mutual

/-- Helper: `findElement` misses an id exactly when its traversal count is
zero. -/
theorem findElement_eq_none_iff (x : String) :
    ∀ es, findElement es x = none ↔ countIds es x = 0
  | [] => by simp [findElement, countIds]
  | e :: rest => by
    have h1 := findInElement_eq_none_iff x e
    have h2 := findElement_eq_none_iff x rest
    simp only [findElement, countIds]
    cases hfe : findInElement e x with
    | some f =>
      rw [hfe] at h1
      simp only [hfe]
      constructor
      · intro hc
        exact Option.noConfusion hc
      · intro hc
        have : countInElem e x = 0 := by omega
        exact absurd (h1.mpr this) (by simp)
    | none =>
      rw [hfe] at h1
      have hz : countInElem e x = 0 := h1.mp rfl
      simp only [hfe, hz, Nat.zero_add]
      exact h2

/-- Helper: `findInElement` misses exactly when the element subtree count is
zero. -/
theorem findInElement_eq_none_iff (x : String) :
    ∀ el, findInElement el x = none ↔ countInElem el x = 0
  | .mk i t d s v u st ch => by
    have hrec := findElement_eq_none_iff x ch
    simp only [findInElement, countInElem]
    by_cases hi : i = x
    · simp [hi]
    · by_cases ht : t = ElementType.container
      · simp [hi, ht, hrec]
      · simp [hi, ht]

end

/-- Helper: once the detach succeeded, either container-lookup failure leaves
the element detached — the mutated template is returned with the error. -/
theorem addElementToContainer_detached (T : Template) (eid cid : String)
    (elem : Element) (T2 : Template)
    (hrm : removeElementFromTemplate T eid = (some elem, T2)) :
    (findElement T2.elements cid = none →
      addElementToContainer T eid cid =
        (.error (.validation ("Container not found: " ++ cid)), T2)) ∧
    (∀ c, findElement T2.elements cid = some c →
      c.element_type ≠ ElementType.container →
      addElementToContainer T eid cid =
        (.error (.validation ("Element " ++ cid ++ " is not a container")), T2)) := by
  constructor
  · intro hnone
    simp only [addElementToContainer, hrm, hnone]
  · intro c hsome hc
    simp only [addElementToContainer, hrm, hsome]
    rw [if_pos hc]

/-- C10: when `addElementToContainer` fails because the destination id does
not resolve (or resolves to a non-container), the moved element has already
been detached and is not re-attached — the returned template is the spliced
one; in particular, moving a container into one of its own descendants (all
occurrences of the destination id lying inside the moved subtree) always
throws `Container not found` and leaves the whole subtree removed. -/
theorem addElementToContainer_failure_spec :
    (∀ (T : Template) (eid cid : String) (elem : Element) (T2 : Template),
      removeElementFromTemplate T eid = (some elem, T2) →
      (findElement T2.elements cid = none →
        addElementToContainer T eid cid =
          (.error (.validation ("Container not found: " ++ cid)), T2)) ∧
      (∀ c, findElement T2.elements cid = some c →
        c.element_type ≠ ElementType.container →
        addElementToContainer T eid cid =
          (.error (.validation ("Element " ++ cid ++ " is not a container")), T2))) ∧
    (∀ (T : Template) (eid cid : String) (elem : Element) (T2 : Template),
      removeElementFromTemplate T eid = (some elem, T2) →
      countIds T.elements cid = countInElem elem cid →
      elem.element_type = ElementType.container →
      1 ≤ countIds elem.children cid →
      addElementToContainer T eid cid =
        (.error (.validation ("Container not found: " ++ cid)), T2) ∧
      findElement T2.elements cid = none) := by
  constructor
  · exact fun T eid cid elem T2 hrm => addElementToContainer_detached T eid cid elem T2 hrm
  · intro T eid cid elem T2 hrm hcnt htype hdesc
    have hsplit : removeElementFromArray T.elements eid = (some elem, T2.elements) := by
      simp only [removeElementFromTemplate] at hrm
      cases hra : removeElementFromArray T.elements eid with
      | mk r rest =>
        rw [hra] at hrm
        cases r with
        | some g =>
          dsimp only at hrm
          injection hrm with h1 h2
          injection h1 with h1
          subst h1
          subst h2
          rfl
        | none =>
          dsimp only at hrm
          injection hrm with h1 h2
          exact Option.noConfusion h1
    have hc := countIds_remove eid cid T.elements elem T2.elements hsplit
    have hz : countIds T2.elements cid = 0 := by omega
    have hnone : findElement T2.elements cid = none :=
      (findElement_eq_none_iff cid T2.elements).mpr hz
    exact ⟨(addElementToContainer_detached T eid cid elem T2 hrm).1 hnone, hnone⟩

/-- Witness for C10: moving container `a` into its child container `b`
throws `Container not found: b` and leaves the template drained of the whole
`a` subtree. -/
theorem addElementToContainer_failure_witness :
    addElementToContainer sampleTemplateAB "a" "b" =
      (.error (.validation ("Container not found: " ++ "b")), sampleTemplateDrained) ∧
    findElement sampleTemplateDrained.elements "b" = none := by
  have h := addElementToContainer_failure_spec.2 sampleTemplateAB "a" "b" sampleElemA
    sampleTemplateDrained rfl (by decide) rfl (by decide)
  exact h

/-- Helper: `rulesText` distributes over list append. -/
theorem rulesText_append :
    ∀ (a b : List (String × String)), rulesText (a ++ b) = rulesText a ++ rulesText b
  | [], b => by simp [rulesText]
  | r :: rest, b => by
    simp [rulesText, rulesText_append rest b, String.append_assoc]

/-- Helper: every property line is nonempty. -/
theorem stylePropCSS_ne_empty (key value : String) (fm : List (String × Font))
    (cm : List (String × Color)) : stylePropCSS key value fm cm ≠ "" := by
  unfold stylePropCSS
  split
  · intro h
    have hl := congrArg String.length h
    simp only [String.length_append] at hl
    have hpos : 0 < String.length "  font-family: \x27" := by decide
    have hz : String.length "" = 0 := by decide
    omega
  · intro h
    have hl := congrArg String.length h
    simp only [String.length_append] at hl
    have hpos : 0 < String.length "  " := by decide
    have hz : String.length "" = 0 := by decide
    omega

/-- Helper: the property loop over a nonempty style map is nonempty. -/
theorem stylePropsCSS_cons_ne_empty (kv : String × String) (rest : ElementStyle)
    (fm : List (String × Font)) (cm : List (String × Color)) :
    stylePropsCSS (kv :: rest) fm cm ≠ "" := by
  intro h
  have hne := stylePropCSS_ne_empty kv.1 kv.2 fm cm
  simp only [stylePropsCSS] at h
  have hl := congrArg String.length h
  simp only [String.length_append] at hl
  have hz : String.length "" = 0 := by decide
  have : String.length (stylePropCSS kv.1 kv.2 fm cm) = 0 := by omega
  have : stylePropCSS kv.1 kv.2 fm cm = "" := by
    cases hcs : stylePropCSS kv.1 kv.2 fm cm with
    | mk cs =>
      rw [hcs] at this
      cases cs with
      | nil => rfl
      | cons c cs' => simp [String.length, hcs] at this
  exact hne this

/-- Helper: `convertStyleToCSS` never emits an empty rule body: either a
forced-position block is prepended, or an explicit `position` entry
guarantees at least one property line. -/
theorem convertStyleToCSS_ne_empty (style : ElementStyle)
    (fm : List (String × Font)) (cm : List (String × Color)) :
    convertStyleToCSS style fm cm ≠ "" := by
  unfold convertStyleToCSS
  by_cases hpos : (mapGet style "position").isSome
  · have hpcss : positionCSS style = "" := by
      unfold positionCSS
      rw [if_neg (by intro hc; exact hc.2 hpos), if_neg (by intro hc; exact hc hpos)]
    rw [hpcss]
    cases style with
    | nil => simp [mapGet] at hpos
    | cons kv rest =>
      intro h
      have hl := congrArg String.length h
      simp only [String.length_append] at hl
      have hz : String.length "" = 0 := by decide
      have hzero : String.length (stylePropsCSS (kv :: rest) fm cm) = 0 := by omega
      have hemp : stylePropsCSS (kv :: rest) fm cm = "" := by
        cases hcs : stylePropsCSS (kv :: rest) fm cm with
        | mk cs =>
          rw [hcs] at hzero
          cases cs with
          | nil => rfl
          | cons c cs2 => simp [String.length] at hzero
      exact stylePropsCSS_cons_ne_empty kv rest fm cm hemp
  · intro h
    have hl := congrArg String.length h
    unfold positionCSS at hl
    by_cases hfs : (mapGet style "width" = some "100%" ∧ mapGet style "height" = some "100%")
    · rw [if_pos ⟨hfs, hpos⟩] at hl
      simp only [String.length_append] at hl
      have hpos2 : 0 < String.length
          "  position: absolute;\n  top: 0;\n  left: 0;\n  z-index: 0;\n" := by decide
      have hz : String.length "" = 0 := by decide
      omega
    · rw [if_neg (by intro hc; exact hfs hc.1), if_pos hpos] at hl
      simp only [String.length_append] at hl
      have hpos2 : 0 < String.length "  position: relative;\n  z-index: 1;\n" := by decide
      have hz : String.length "" = 0 := by decide
      omega

mutual

/-- Helper: element stylesheet text is exactly the flattened rule list. -/
theorem generateElementCSS_eq (fm : List (String × Font)) (cm : List (String × Color)) :
    ∀ (e : Element) (pre : String),
      generateElementCSS fm cm e pre = rulesText (cssRulesOf fm cm e pre)
  | .mk i t d s v u st ch, pre => by
    have hrec := generateElementCSSList_eq fm cm ch (chainName pre i)
    cases st with
    | none => simp [generateElementCSS, cssRulesOf, rulesText, hrec]
    | some style =>
      by_cases hne : convertStyleToCSS style fm cm ≠ ""
      · simp [generateElementCSS, cssRulesOf, hne, rulesText, rulesText_append, hrec,
          String.append_assoc]
      · simp [generateElementCSS, cssRulesOf, hne, rulesText, hrec]

/-- Helper: sibling-list stylesheet text is the flattened rule list. -/
theorem generateElementCSSList_eq (fm : List (String × Font)) (cm : List (String × Color)) :
    ∀ (es : List Element) (pre : String),
      generateElementCSSList fm cm es pre = rulesText (cssRuleListOf fm cm es pre)
  | [], pre => by simp [generateElementCSSList, cssRuleListOf, rulesText]
  | e :: rest, pre => by
    have h1 := generateElementCSS_eq fm cm e pre
    have h2 := generateElementCSSList_eq fm cm rest pre
    simp [generateElementCSSList, cssRuleListOf, rulesText_append, h1, h2]

end

/-- Helper: a middle chunk is an infix. -/
theorem containsStr_parts (a mid b : String) : containsStr (a ++ mid ++ b) mid :=
  ⟨a.data, b.data, by simp⟩

/-- Helper: a final chunk is an infix. -/
theorem containsStr_append_self (a n : String) : containsStr (a ++ n) n :=
  ⟨a.data, [], by simp⟩

/-- Helper: infixes persist under appending on the right. -/
theorem containsStr_left (a b n : String) (h : containsStr a n) :
    containsStr (a ++ b) n := by
  obtain ⟨s, t, hst⟩ := h
  exact ⟨s, t ++ b.data, by rw [String.data_append, ← hst]; simp⟩

/-- Helper: infixes persist under appending on the left. -/
theorem containsStr_right (a b n : String) (h : containsStr b n) :
    containsStr (a ++ b) n := by
  obtain ⟨s, t, hst⟩ := h
  exact ⟨a.data ++ s, t, by rw [String.data_append, ← hst]; simp⟩

mutual

/-- Helper: the markup of an element carries `class="<name>"` for every class
name it renders. -/
theorem generateElementHTML_contains (dm : List (String × DataItem)) :
    ∀ (e : Element) (pre : String) (lvl : ℕ) (name : String),
      name ∈ renderedClassNames dm e pre →
      containsStr (generateElementHTML dm e lvl pre) (classAttr name)
  | .mk i t did s v u st ch, pre, lvl, name, hmem => by
    cases t with
    | data_item =>
      simp only [renderedClassNames] at hmem
      cases did with
      | none => simp at hmem
      | some d =>
        by_cases hd : d = ""
        · simp [hd] at hmem
        · cases hitem : mapGet dm d with
          | none => simp [hd, hitem] at hmem
          | some item =>
            by_cases htext : item.type = "text"
            · have hname : name = chainName pre i := by
                simp [hd, hitem, htext] at hmem
                exact hmem
              subst hname
              simp only [generateElementHTML, generateDataItemHTML]
              rw [if_neg hd, hitem]
              dsimp only
              rw [if_pos htext]
              exact containsStr_left _ _ _ (containsStr_left _ _ _
                (containsStr_left _ _ _ (containsStr_append_self _ _)))
            · by_cases himg : item.type = "image"
              · have hname : name = chainName pre i := by
                  simp [hd, hitem, htext, himg] at hmem
                  exact hmem
                subst hname
                simp only [generateElementHTML, generateDataItemHTML]
                rw [if_neg hd, hitem]
                dsimp only
                rw [if_neg htext, if_pos himg]
                exact containsStr_left _ _ _ (containsStr_left _ _ _
                  (containsStr_left _ _ _ (containsStr_left _ _ _
                    (containsStr_left _ _ _ (containsStr_append_self _ _)))))
              · simp [hd, hitem, htext, himg] at hmem
    | shape =>
      have hname : name = chainName pre i := by
        simp [renderedClassNames] at hmem
        exact hmem
      subst hname
      simp only [generateElementHTML]
      exact containsStr_left _ _ _ (containsStr_append_self _ _)
    | container =>
      simp only [renderedClassNames, List.mem_cons] at hmem
      rcases hmem with hname | hrest
      · subst hname
        simp only [generateElementHTML]
        exact containsStr_left _ _ _ (containsStr_left _ _ _ (containsStr_left _ _ _
          (containsStr_left _ _ _ (containsStr_append_self _ _))))
      · have hk := generateElementHTMLList_contains dm ch (chainName pre i)
          (lvl + 1) name hrest
        simp only [generateElementHTML]
        exact containsStr_left _ _ _ (containsStr_left _ _ _
          (containsStr_right _ _ _ hk))
    | image =>
      have hname : name = chainName pre i := by
        simp [renderedClassNames] at hmem
        exact hmem
      subst hname
      simp only [generateElementHTML]
      exact containsStr_left _ _ _ (containsStr_left _ _ _ (containsStr_left _ _ _
        (containsStr_append_self _ _)))
    | svg =>
      have hname : name = chainName pre i := by
        simp [renderedClassNames] at hmem
        exact hmem
      subst hname
      simp only [generateElementHTML]
      exact containsStr_left _ _ _ (containsStr_left _ _ _ (containsStr_left _ _ _
        (containsStr_append_self _ _)))

/-- Helper: the markup of a sibling list carries every rendered class name. -/
theorem generateElementHTMLList_contains (dm : List (String × DataItem)) :
    ∀ (es : List Element) (pre : String) (lvl : ℕ) (name : String),
      name ∈ renderedClassNamesList dm es pre →
      containsStr (generateElementHTMLList dm es lvl pre) (classAttr name)
  | [], pre, lvl, name, hmem => by simp [renderedClassNamesList] at hmem
  | e :: rest, pre, lvl, name, hmem => by
    simp only [renderedClassNamesList, List.mem_append] at hmem
    simp only [generateElementHTMLList]
    rcases hmem with h | h
    · exact containsStr_left _ _ _ (generateElementHTML_contains dm e pre lvl name h)
    · exact containsStr_right _ _ _
        (generateElementHTMLList_contains dm rest pre lvl name h)

end

mutual

/-- Helper: under well-formedness and resolvable data items, every class name
that receives a stylesheet rule is also a rendered class name. -/
theorem cssNames_sub (fm : List (String × Font)) (cm : List (String × Color))
    (dm : List (String × DataItem)) :
    ∀ (e : Element) (pre : String), elemWF e = true → allResolve dm e = true →
      ∀ nm, nm ∈ (cssRulesOf fm cm e pre).map Prod.fst →
        nm ∈ renderedClassNames dm e pre
  | .mk i t did s v u st ch, pre, hwf, hres, nm, hmem => by
    simp only [elemWF, Bool.and_eq_true, Bool.or_eq_true, decide_eq_true_eq] at hwf
    simp only [allResolve, Bool.and_eq_true] at hres
    have hsub := cssNames_subList fm cm dm ch (chainName pre i) hwf.2 hres.2
    have hown : nm ∈ (cssRulesOf fm cm (.mk i t did s v u st ch) pre).map Prod.fst →
        nm = chainName pre i ∨
          nm ∈ (cssRuleListOf fm cm ch (chainName pre i)).map Prod.fst := by
      intro hm
      simp only [cssRulesOf, List.map_append, List.mem_append] at hm
      rcases hm with hm | hm
      · left
        cases st with
        | none => simp at hm
        | some style =>
          by_cases hne : convertStyleToCSS style fm cm ≠ ""
          · simp [hne] at hm
            exact hm
          · simp [hne] at hm
      · right
        exact hm
    rcases hown hmem with hname | hrest
    · subst hname
      cases t with
      | data_item =>
        cases did with
        | none => simp [allResolve] at hres
        | some d =>
          simp only [decide_eq_true_eq, Bool.and_eq_true] at hres
          have h1 := hres.1
          simp only [renderedClassNames]
          cases hitem : mapGet dm d with
          | none => rw [hitem] at h1; simp at h1
          | some item =>
            rw [hitem] at h1
            simp only [Bool.and_eq_true, decide_eq_true_eq, Bool.or_eq_true] at h1
            rw [if_neg h1.1]
            dsimp only
            rw [if_pos h1.2]
            simp
      | container => simp [renderedClassNames]
      | shape => simp [renderedClassNames]
      | image => simp [renderedClassNames]
      | svg => simp [renderedClassNames]
    · cases t with
      | container =>
        simp only [renderedClassNames, List.mem_cons]
        right
        exact hsub nm hrest
      | data_item =>
        rcases hwf.1 with hcontra | hempty
        · exact absurd hcontra (by simp)
        · have : ch = [] := by
            cases ch with
            | nil => rfl
            | cons a b => simp [List.isEmpty] at hempty
          subst this
          simp [cssRuleListOf] at hrest
      | shape =>
        rcases hwf.1 with hcontra | hempty
        · exact absurd hcontra (by simp)
        · have : ch = [] := by
            cases ch with
            | nil => rfl
            | cons a b => simp [List.isEmpty] at hempty
          subst this
          simp [cssRuleListOf] at hrest
      | image =>
        rcases hwf.1 with hcontra | hempty
        · exact absurd hcontra (by simp)
        · have : ch = [] := by
            cases ch with
            | nil => rfl
            | cons a b => simp [List.isEmpty] at hempty
          subst this
          simp [cssRuleListOf] at hrest
      | svg =>
        rcases hwf.1 with hcontra | hempty
        · exact absurd hcontra (by simp)
        · have : ch = [] := by
            cases ch with
            | nil => rfl
            | cons a b => simp [List.isEmpty] at hempty
          subst this
          simp [cssRuleListOf] at hrest

/-- Helper: `cssNames_sub` over sibling lists. -/
theorem cssNames_subList (fm : List (String × Font)) (cm : List (String × Color))
    (dm : List (String × DataItem)) :
    ∀ (es : List Element) (pre : String), elemWFList es = true →
      allResolveList dm es = true →
      ∀ nm, nm ∈ (cssRuleListOf fm cm es pre).map Prod.fst →
        nm ∈ renderedClassNamesList dm es pre
  | [], pre, _, _, nm, hmem => by simp [cssRuleListOf] at hmem
  | e :: rest, pre, hwf, hres, nm, hmem => by
    simp only [elemWFList, Bool.and_eq_true] at hwf
    simp only [allResolveList, Bool.and_eq_true] at hres
    simp only [cssRuleListOf, List.map_append, List.mem_append] at hmem
    simp only [renderedClassNamesList, List.mem_append]
    rcases hmem with h | h
    · exact Or.inl (cssNames_sub fm cm dm e pre hwf.1 hres.1 nm h)
    · exact Or.inr (cssNames_subList fm cm dm rest pre hwf.2 hres.2 nm h)

end

/-- C9 (amended): the stylesheet is exactly one rule per element with a style
map, each rule body nonempty, under the class name equal to the element id
prefixed by the *hyphen*-joined chain of ancestor ids (`chainName`); the
markup assigns each rendered element a `class="…"` attribute with the same
composed name, and (for well-formed trees with resolvable data items) every
class name that received a rule is one of the markup's class names. -/
theorem renderer_classNames_spec :
    (∀ (fm : List (String × Font)) (cm : List (String × Color))
        (es : List Element) (pre : String),
      generateElementCSSList fm cm es pre = rulesText (cssRuleListOf fm cm es pre)) ∧
    (∀ (style : ElementStyle) (fm : List (String × Font)) (cm : List (String × Color)),
      convertStyleToCSS style fm cm ≠ "") ∧
    (∀ (dm : List (String × DataItem)) (e : Element) (pre : String) (lvl : ℕ)
        (name : String),
      name ∈ renderedClassNames dm e pre →
      containsStr (generateElementHTML dm e lvl pre) (classAttr name)) ∧
    (∀ (fm : List (String × Font)) (cm : List (String × Color))
        (dm : List (String × DataItem)) (es : List Element) (pre : String),
      elemWFList es = true → allResolveList dm es = true →
      ∀ nm, nm ∈ (cssRuleListOf fm cm es pre).map Prod.fst →
        nm ∈ renderedClassNamesList dm es pre) :=
  ⟨fun fm cm es pre => generateElementCSSList_eq fm cm es pre,
   fun style fm cm => convertStyleToCSS_ne_empty style fm cm,
   fun dm e pre lvl name h => generateElementHTML_contains dm e pre lvl name h,
   fun fm cm dm es pre hwf hres nm h => cssNames_subList fm cm dm es pre hwf hres nm h⟩

/-- Witness for C9 at the concrete `a > b > c` tree: `a-b` is a rendered class
name of the markup, and the styled `a-b-c` rule name is among the markup's
class names. -/
theorem renderer_classNames_witness :
    containsStr (generateElementHTML [] sampleElemC9a 1 "") (classAttr "a-b") ∧
    "a-b-c" ∈ renderedClassNamesList [] [sampleElemC9a] "" := by
  constructor
  · exact renderer_classNames_spec.2.2.1 [] sampleElemC9a "" 1 "a-b" (by decide)
  · exact renderer_classNames_spec.2.2.2 [] [] [] [sampleElemC9a] ""
      (by decide) (by decide) "a-b-c" (by decide)

set_option maxRecDepth 100000 in
/-- C9 counterexample: in the concrete `a > b > c` scene the stylesheet names
the innermost rule `.a-b-c` (hyphen-joined) and contains no dot-joined chain
`a.b` anywhere; the markup likewise carries `class="a-b-c"` and no `a.b`. -/
theorem renderer_dotjoin_counterexample :
    containsStr (generateElementCSSList [] [] [sampleElemC9a] "") ".a-b-c" ∧
    ¬ containsStr (generateElementCSSList [] [] [sampleElemC9a] "") "a.b" ∧
    containsStr (generateElementHTML [] sampleElemC9a 1 "") (classAttr "a-b-c") ∧
    ¬ containsStr (generateElementHTML [] sampleElemC9a 1 "") "a.b" := by
  refine ⟨by decide, by decide, by decide, by decide⟩

/-- C7 (amended): the scenario produces a Template with exactly two elements —
the full-size rectangle styled with the registered yellow first, then the text
element — and a Theme whose palette gained exactly *two* colors (the yellow
background and the text's default black `#000000`); the text element's style
contains `left:50%`, `top:50%`, and the transform
`translate(calc(-50% + 0px), calc(-50% + 0px))` (the computed-value
equivalent of `translate(-50%, -50%)` that the anchor path emits). -/
theorem scenario_canvas_text_spec :
    isErr scenarioRun.2.2 = false ∧
    scenarioCtx.template.canvas = { width := 1240, height := 1748 } ∧
    scenarioCtx.template.elements.map Element.element_type =
      [ElementType.shape, ElementType.data_item] ∧
    (scenarioCtx.template.elements.getD 0 dummyElement).shape_type =
      some ShapeType.rectangle ∧
    scenarioCtx.template.elements.map Element.style =
      [some [("width", "100%"), ("height", "100%"), ("background_color", "color_0")],
       some [("position", "absolute"), ("left", "50%"), ("top", "50%"),
             ("font", "font_2"), ("font_size", "16px"), ("color", "color_3"),
             ("text_align", "left"),
             ("transform", "translate(calc(-50% + 0px), calc(-50% + 0px))")]] ∧
    scenarioCtx.theme.color_palette =
      [{ id := "color_0", name := "color_1", r := 255, g := 255, b := 0, a := 1 },
       { id := "color_3", name := "color_2", r := 0, g := 0, b := 0, a := 1 }] ∧
    scenarioCtx.theme.font_palette =
      [{ font_id := "font_2", font_name := "Arial", font_url := "fonts/Arial.otf" }] := by
  refine ⟨by decide, by decide, by decide, by decide, by decide, by decide, by decide⟩

/-- C7 counterexample: the palette gained two colors, not one (the text layer
registers its default black), and the transform emitted under
`anchor: "center"` is the `calc` form — the literal `translate(-50%, -50%)`
appears nowhere in the text element's style. -/
theorem scenario_canvas_text_counterexample :
    scenarioCtx.theme.color_palette.length = 2 ∧
    (initialContext "s" "S" 2).theme.color_palette.length = 0 ∧
    scenarioCtx.theme.color_palette.length ≠
      (initialContext "s" "S" 2).theme.color_palette.length + 1 ∧
    mapGet ((scenarioCtx.template.elements.getD 1 dummyElement).style.getD [])
      "transform" = some "translate(calc(-50% + 0px), calc(-50% + 0px))" ∧
    ¬ containsStr "translate(calc(-50% + 0px), calc(-50% + 0px))"
      "translate(-50%, -50%)" := by
  refine ⟨by decide, by decide, by decide, by decide, by decide⟩

set_option maxHeartbeats 1000000 in
set_option maxRecDepth 100000 in
/-- C1: the code evaluated at the failing input.  With five steps whose third
(`resize_image`) always fails, the channel sees the progress messages for
steps 1–3 only and then the failure report — which carries step 0 and
operation `unknown` rather than step 3 and `resize_image` — and the handlers
of steps 4 and 5 are never invoked (the invoked-step trace is `[1, 2, 3]`). -/
theorem executeOperations_step3_failure :
    executeOperations c1Extern "s" "S" fiveOps =
      [WsMessage.progress 1 5 "generate_image" "Executing generate_image...",
       WsMessage.progress 2 5 "generate_image" "Executing generate_image...",
       WsMessage.progress 3 5 "resize_image" "Executing resize_image...",
       WsMessage.failed 0 "unknown" "resize_image operation is not implemented yet"] ∧
    (runSteps c1Extern fiveOps (initialContext "s" "S" 5) 5).2.1 = [1, 2, 3] := by
  refine ⟨by decide, by decide⟩

end CanvaKiller
